import Mathlib

/-!
# Verification of the novaos-v2 security layer

Shallow embedding of the `src/security` modules of novaos-v2 and proofs
about them.  Conventions used throughout:

* Dollar amounts, token counts and clock readings (Python `float` /
  `datetime`) are modelled as exact rationals (`ℚ`); timestamps are seconds.
* Python dictionaries that are iterated in insertion order are modelled as
  association lists (`List (String × _)`).
* `threading.Lock` is **not** reentrant in CPython: acquiring a lock the
  current thread already holds blocks forever.  All code here is
  single-threaded, so a method body runs with its own lock held, and an
  inner `with self.lock:` on the same lock is a guaranteed deadlock.  Such
  a call is modelled as `Except.error .deadlock` (the call never returns).
* A Python function that raises is modelled with `Except PyError`;
  `RecursionError` (raised when unbounded self-recursion exhausts the
  interpreter stack and not caught by `except (OSError, OverflowError,
  ValueError)`) is `PyError.recursionError`.
-/

namespace NovaSec

/-- Exceptional outcomes of the embedded Python code. -/
inductive PyError where
  | recursionError
  | valueError
  | typeError
  | osError
  | overflowError
  | deadlock
deriving Repr, DecidableEq

/-! ## budget_enforcer.py -/

/-- The `period` field of a `BudgetLimit` (`'hourly'`, `'daily'`, ...). -/
inductive Period where
  | hourly
  | daily
  | weekly
  | monthly
  | operation
deriving Repr, DecidableEq

/-- Length in seconds of each reset period, per `BudgetLimit.reset_if_needed`
(`timedelta(hours=1)`, `timedelta(days=1)`, `timedelta(weeks=1)`,
`timedelta(days=30)`); periods other than the four listed never reset. -/
def periodLength : Period → Option ℚ
  | .hourly => some 3600
  | .daily => some 86400
  | .weekly => some 604800
  | .monthly => some 2592000
  | .operation => none

/-- `BudgetLimit` dataclass from budget_enforcer.py. -/
structure BudgetLimit where
  name : String
  limit : ℚ
  period : Period
  currentSpend : ℚ
  periodStart : ℚ
  enforced : Bool
deriving Repr, DecidableEq

/-- `BudgetLimit.reset_if_needed`: zero the spend and restart the period when
the elapsed time strictly exceeds the period length. -/
def BudgetLimit.resetIfNeeded (l : BudgetLimit) (now : ℚ) : BudgetLimit :=
  match periodLength l.period with
  | some len =>
      if now - l.periodStart > len then
        { l with currentSpend := 0, periodStart := now }
      else l
  | none => l

/-- State of a `BudgetEnforcer`.  `global_limits` is the insertion-ordered
dict `{'daily': ..., 'hourly': ...}`; each per-agent dict holds the single
key `'daily'`, so `agent_limits` is an association list from agent id to
that one limit. -/
structure EnforcerState where
  globalDaily : BudgetLimit
  globalHourly : BudgetLimit
  agentLimits : List (String × BudgetLimit)
  perAgentDailyLimit : ℚ
  perOperationLimit : ℚ
  highCostThreshold : ℚ
  emergencyStopThreshold : ℚ
  emergencyStopActive : Bool
  emergencyStopReason : Option String
  totalOperations : Nat
  totalCost : ℚ
  blockedOperations : Nat
  blockedCostSaved : ℚ
deriving Repr, DecidableEq

/-- `BudgetEnforcer.__init__` at time `t0` (the `datetime.now()` used for the
`period_start` defaults of the two global limits). -/
def mkBudgetEnforcer (globalDailyLimit globalHourlyLimit perAgentDailyLimit
    perOperationLimit highCostThreshold emergencyStopThreshold : ℚ)
    (t0 : ℚ) : EnforcerState where
  globalDaily :=
    { name := "global_daily", limit := globalDailyLimit, period := .daily
      currentSpend := 0, periodStart := t0, enforced := true }
  globalHourly :=
    { name := "global_hourly", limit := globalHourlyLimit, period := .hourly
      currentSpend := 0, periodStart := t0, enforced := true }
  agentLimits := []
  perAgentDailyLimit := perAgentDailyLimit
  perOperationLimit := perOperationLimit
  highCostThreshold := highCostThreshold
  emergencyStopThreshold := emergencyStopThreshold
  emergencyStopActive := false
  emergencyStopReason := none
  totalOperations := 0
  totalCost := 0
  blockedOperations := 0
  blockedCostSaved := 0

/-- Default constructor arguments of `BudgetEnforcer.__init__`. -/
def defaultBudgetEnforcer (t0 : ℚ) : EnforcerState :=
  mkBudgetEnforcer 100 20 10 30 5 (150 : ℚ) t0

/-- Shared bookkeeping of every blocked branch of `check_and_reserve`
(`blocked_operations += 1; blocked_cost_saved += estimated_cost`). -/
def EnforcerState.blockOp (st : EnforcerState) (estimatedCost : ℚ) : EnforcerState :=
  { st with blockedOperations := st.blockedOperations + 1
            blockedCostSaved := st.blockedCostSaved + estimatedCost }

/-- Update the limit bound to `agentId` in the association list. -/
def updateAgentLimit (ls : List (String × BudgetLimit)) (agentId : String)
    (f : BudgetLimit → BudgetLimit) : List (String × BudgetLimit) :=
  ls.map fun p => if p.1 = agentId then (p.1, f p.2) else p

instance : Inhabited BudgetLimit :=
  ⟨{ name := "", limit := 0, period := .daily, currentSpend := 0
     periodStart := 0, enforced := true }⟩

/-- The "Reset budgets if periods elapsed" block of `check_and_reserve`:
`reset_if_needed` on both global limits and on the calling agent's limits
(when that agent already has an entry). -/
def applyResets (st : EnforcerState) (now : ℚ) (agentId : String) :
    EnforcerState :=
  { st with
    globalDaily := st.globalDaily.resetIfNeeded now
    globalHourly := st.globalHourly.resetIfNeeded now
    agentLimits :=
      if (st.agentLimits.lookup agentId).isSome then
        updateAgentLimit st.agentLimits agentId (·.resetIfNeeded now)
      else st.agentLimits }

/-- The fresh `BudgetLimit(f'{agent_id}_daily', per_agent_daily_limit,
'daily')` created on an agent's first reservation; its `period_start`
defaults to the current time. -/
def newAgentLimit (st : EnforcerState) (now : ℚ) (agentId : String) :
    BudgetLimit :=
  { name := agentId ++ "_daily", limit := st.perAgentDailyLimit
    period := .daily, currentSpend := 0, periodStart := now
    enforced := true }

/-- The "Check per-agent limits" setup block of `check_and_reserve`: create
the agent's `'daily'` limit when the agent has no entry yet. -/
def ensureAgentLimit (st : EnforcerState) (now : ℚ) (agentId : String) :
    EnforcerState :=
  { st with agentLimits :=
      if (st.agentLimits.lookup agentId).isSome then st.agentLimits
      else st.agentLimits ++ [(agentId, newAgentLimit st now agentId)] }

/-- `limit.current_spend += estimated_cost`. -/
def addSpend (c : ℚ) (l : BudgetLimit) : BudgetLimit :=
  { l with currentSpend := l.currentSpend + c }

/-- The "Reserve the budget" block of `check_and_reserve`: add the cost to
both global limits and to the calling agent's limit, and bump the stats. -/
def reserveSpend (st : EnforcerState) (agentId : String) (c : ℚ) :
    EnforcerState :=
  { st with
    globalDaily := addSpend c st.globalDaily
    globalHourly := addSpend c st.globalHourly
    agentLimits := updateAgentLimit st.agentLimits agentId (addSpend c)
    totalOperations := st.totalOperations + 1
    totalCost := st.totalCost + c }

/-- The part of `check_and_reserve` after the emergency-stop gate and the
reset block: the limit checks, the reservation, and the emergency-stop
trigger. -/
def checkAndReserveCore (st : EnforcerState) (now : ℚ) (agentId : String)
    (estimatedCost : ℚ) :
    Except PyError ((Bool × Option String) × EnforcerState) :=
    -- Check per-operation limit
    if estimatedCost > st.perOperationLimit then
      .ok ((false, some "Exceeds per-operation limit"), st.blockOp estimatedCost)
    -- Check global limits, in dict insertion order: 'daily' then 'hourly'
    else if st.globalDaily.enforced ∧
        st.globalDaily.currentSpend + estimatedCost > st.globalDaily.limit then
      .ok ((false, some "Exceeds daily budget limit"), st.blockOp estimatedCost)
    else if st.globalHourly.enforced ∧
        st.globalHourly.currentSpend + estimatedCost > st.globalHourly.limit then
      .ok ((false, some "Exceeds hourly budget limit"), st.blockOp estimatedCost)
    else
      -- Create the per-agent daily limit if absent
      let st1 := ensureAgentLimit st now agentId
      let agentLimit := ((st1.agentLimits.lookup agentId).getD default)
      -- Check per-agent limit
      if agentLimit.enforced ∧
          agentLimit.currentSpend + estimatedCost > agentLimit.limit then
        .ok ((false, some "Agent exceeds daily budget limit"),
             st1.blockOp estimatedCost)
      else
        -- Check if approaching emergency stop threshold
        if st1.globalDaily.currentSpend + estimatedCost
            ≥ st1.emergencyStopThreshold then
          -- self.trigger_emergency_stop(...) re-acquires self.lock: deadlock
          .error .deadlock
        else
          -- Reserve the budget
          .ok ((true, none), reserveSpend st1 agentId estimatedCost)

/-- `BudgetEnforcer.check_and_reserve(agent_id, estimated_cost, operation)`.

`now` is the `datetime.now()` reading for this call (used by the
`reset_if_needed` calls and as `period_start` of a freshly created per-agent
limit).  The call runs under `self.lock`; when the running daily total
reaches `emergency_stop_threshold` the code calls
`self.trigger_emergency_stop(...)`, whose own `with self.lock:` re-acquires
the non-reentrant lock the method already holds, so that branch never
returns: it is modelled as `.error .deadlock` in `checkAndReserveCore`. -/
def checkAndReserve (st : EnforcerState) (now : ℚ) (agentId : String)
    (estimatedCost : ℚ) :
    Except PyError ((Bool × Option String) × EnforcerState) :=
  -- Check emergency stop
  if st.emergencyStopActive then
    .ok ((false, some ("EMERGENCY STOP ACTIVE: " ++
            (st.emergencyStopReason.getD "None"))), st.blockOp estimatedCost)
  else
    -- Reset budgets if periods elapsed, then run the checks
    checkAndReserveCore (applyResets st now agentId) now agentId estimatedCost

/-- `limit.current_spend -= refund`. -/
def subSpend (refund : ℚ) (l : BudgetLimit) : BudgetLimit :=
  { l with currentSpend := l.currentSpend - refund }

/-- `BudgetEnforcer.release_unused(agent_id, reserved_cost, actual_cost)`. -/
def releaseUnused (st : EnforcerState) (agentId : String)
    (reservedCost actualCost : ℚ) : EnforcerState :=
  if actualCost ≥ reservedCost then st
  else
    let refund := reservedCost - actualCost
    { st with
      globalDaily := subSpend refund st.globalDaily
      globalHourly := subSpend refund st.globalHourly
      agentLimits :=
        if (st.agentLimits.lookup agentId).isSome then
          updateAgentLimit st.agentLimits agentId (subSpend refund)
        else st.agentLimits
      totalCost := st.totalCost - refund }

/-! ### RateLimiter -/

/-- Mutable state of `RateLimiter` (token bucket). -/
structure RateLimiterState where
  callsPerMinute : ℚ
  burstSize : ℚ
  tokens : ℚ
  lastUpdate : ℚ
deriving Repr, DecidableEq

/-- `self.refill_rate = calls_per_minute / 60.0`. -/
def RateLimiterState.refillRate (st : RateLimiterState) : ℚ :=
  st.callsPerMinute / 60

/-- `RateLimiter.__init__(calls_per_minute, burst_size)` at clock reading
`t0` (the `time.time()` stored in `last_update`). -/
def mkRateLimiter (callsPerMinute burstSize t0 : ℚ) : RateLimiterState :=
  { callsPerMinute := callsPerMinute, burstSize := burstSize
    tokens := burstSize, lastUpdate := t0 }

/-- The `while time.time() < deadline:` loop of `RateLimiter.acquire`.
Each iteration reads the clock twice (the loop guard, then
`now = time.time()` inside the lock), so it consumes two samples of the
supplied clock trace; an exhausted trace ends the observation with the
timeout result `False`. -/
def acquireLoop : RateLimiterState → ℚ → List ℚ → Bool × RateLimiterState
  | st, deadline, t :: now :: rest =>
      if t < deadline then
        let tokens := min st.burstSize
          (st.tokens + (now - st.lastUpdate) * st.refillRate)
        let st' := { st with tokens := tokens, lastUpdate := now }
        if st'.tokens ≥ 1 then
          (true, { st' with tokens := st'.tokens - 1 })
        else
          acquireLoop st' deadline rest
      else (false, st)
  | st, _, _ => (false, st)

/-- `RateLimiter.acquire(timeout)`: the first clock sample fixes
`deadline = time.time() + timeout`, then the polling loop runs. -/
def acquire (st : RateLimiterState) (timeout : ℚ) (clock : List ℚ) :
    Bool × RateLimiterState :=
  match clock with
  | [] => (false, st)
  | t0 :: rest => acquireLoop st (t0 + timeout) rest

/-- `RateLimiter.try_acquire()` = `self.acquire(timeout=0.0)`. -/
def tryAcquire (st : RateLimiterState) (clock : List ℚ) :
    Bool × RateLimiterState :=
  acquire st 0 clock

/-! ### Traces of budget operations -/

/-- One call against a `BudgetEnforcer` within a trace. -/
inductive BudgetOp where
  | reserve (now : ℚ) (agentId : String) (estimatedCost : ℚ)
  | release (agentId : String) (reservedCost actualCost : ℚ)
deriving Repr, DecidableEq

/-- Observable outcome of one trace step: whether a reservation was allowed
and, for a release, the refund actually applied and whether the agent's own
limit was touched (it is only when the agent already has an entry). -/
inductive BudgetLog where
  | reserved (allowed : Bool) (agentId : String) (cost : ℚ)
  | released (agentId : String) (refund : ℚ) (touchedAgent : Bool)
deriving Repr, DecidableEq

/-- Run a trace of `check_and_reserve` / `release_unused` calls, collecting
the outcome log.  A step that deadlocks (`check_and_reserve` reaching the
emergency-stop branch) hangs the program, so the trace yields `none`. -/
def runBudget (st : EnforcerState) :
    List BudgetOp → Option (EnforcerState × List BudgetLog)
  | [] => some (st, [])
  | .reserve now a c :: rest =>
      match checkAndReserve st now a c with
      | .error _ => none
      | .ok ((allowed, _), st') =>
          match runBudget st' rest with
          | some (fin, logs) => some (fin, .reserved allowed a c :: logs)
          | none => none
  | .release a r act :: rest =>
      let touched := (st.agentLimits.lookup a).isSome && decide (act < r)
      let refund := if act < r then r - act else 0
      match runBudget (releaseUnused st a r act) rest with
      | some (fin, logs) => some (fin, .released a refund touched :: logs)
      | none => none

/-- Sum of the costs of successful reservations (every successful
reservation is added to both global limits). -/
def gReserved : List BudgetLog → ℚ
  | [] => 0
  | .reserved true _ c :: rest => c + gReserved rest
  | _ :: rest => gReserved rest

/-- Sum of the refunds applied by releases (every applied refund is
subtracted from both global limits). -/
def gReleased : List BudgetLog → ℚ
  | [] => 0
  | .released _ refund _ :: rest => refund + gReleased rest
  | _ :: rest => gReleased rest

/-- Sum of the costs successfully reserved by agent `a`. -/
def aReserved (a : String) : List BudgetLog → ℚ
  | [] => 0
  | .reserved true b c :: rest =>
      (if b = a then c else 0) + aReserved a rest
  | _ :: rest => aReserved a rest

/-- Sum of the refunds applied to agent `a`'s own limit. -/
def aReleased (a : String) : List BudgetLog → ℚ
  | [] => 0
  | .released b refund true :: rest =>
      (if b = a then refund else 0) + aReleased a rest
  | _ :: rest => aReleased a rest

/-- Current spend recorded for agent `a` (`0` before the agent's limit is
first created). -/
def agentSpend (st : EnforcerState) (a : String) : ℚ :=
  match st.agentLimits.lookup a with
  | some l => l.currentSpend
  | none => 0

/-- The timestamp of a `reserve` step lies within the first hour after the
enforcer was created, the claims' "within one budget period": under it no
`reset_if_needed` ever fires. -/
def opTimeInWindow (t0 : ℚ) : BudgetOp → Prop
  | .reserve now _ _ => t0 ≤ now ∧ now ≤ t0 + 3600
  | .release _ _ _ => True

instance (t0 : ℚ) (op : BudgetOp) : Decidable (opTimeInWindow t0 op) :=
  match op with
  | .reserve now _ _ => inferInstanceAs (Decidable (t0 ≤ now ∧ now ≤ t0 + 3600))
  | .release _ _ _ => inferInstanceAs (Decidable True)

/-! ## input_validator.py

The validator's pattern checks are Python `re` searches.  They are embedded
with a small total regular-expression engine (Brzozowski derivatives):
`reSearch` decides whether a pattern matches anywhere in the string, which
is exactly the information `findall`/`search` truthiness provides, and
`subLL` models `re.sub`, taking at each position the leftmost-longest
match (for the validator's patterns this coincides with Python's leftmost
greedy backtracking match).  `re.IGNORECASE` is modelled by ASCII
case-folding baked into the character matcher (`ichr`); all inputs
evaluated here are ASCII. -/

/-- Regular expressions over characters: empty string, character class,
concatenation, alternation, Kleene star. -/
inductive RE where
  | eps
  | cls (p : Char → Bool)
  | seq (a b : RE)
  | alt (a b : RE)
  | star (a : RE)

/-- Does `r` accept the empty string? -/
def RE.nullable : RE → Bool
  | .eps => true
  | .cls _ => false
  | .seq a b => a.nullable && b.nullable
  | .alt a b => a.nullable || b.nullable
  | .star _ => true

/-- Brzozowski derivative of `r` with respect to character `c`. -/
def RE.deriv : RE → Char → RE
  | .eps, _ => .cls fun _ => false
  | .cls p, c => if p c then .eps else .cls fun _ => false
  | .seq a b, c =>
      if a.nullable then .alt (.seq (a.deriv c) b) (b.deriv c)
      else .seq (a.deriv c) b
  | .alt a b, c => .alt (a.deriv c) (b.deriv c)
  | .star a, c => .seq (a.deriv c) (.star a)

/-- Does `r` match some prefix of `s`? -/
def rePrefix (r : RE) : List Char → Bool
  | [] => r.nullable
  | c :: rest => r.nullable || rePrefix (r.deriv c) rest

/-- `re.search` truthiness: does `r` match some substring of `s`? -/
def reSearch (r : RE) : List Char → Bool
  | [] => r.nullable
  | c :: rest => rePrefix r (c :: rest) || reSearch r rest

/-- Length of the longest prefix of `s` matched by `r` (none if no prefix
matches). -/
def longestLen (r : RE) : List Char → Nat → Option Nat → Option Nat
  | [], idx, best => if r.nullable then some idx else best
  | c :: rest, idx, best =>
      longestLen (r.deriv c) rest (idx + 1)
        (if r.nullable then some idx else best)

/-- Is `pat` a prefix of `s`? -/
def listStarts : List Char → List Char → Bool
  | [], _ => true
  | _ :: _, [] => false
  | p :: ps, c :: cs => p == c && listStarts ps cs

/-- Python's `in` on strings: substring containment. -/
def containsSub (pat : List Char) : List Char → Bool
  | [] => listStarts pat []
  | c :: cs => listStarts pat (c :: cs) || containsSub pat cs

/-- `needle in haystack` for strings. -/
def strIn (needle haystack : String) : Bool :=
  containsSub needle.toList haystack.toList

/-- Scan step of `subLL`, structurally recursive on a fuel argument (the
input length) so that it reduces definitionally. -/
def subFuel (r : RE) (repl : List Char) : Nat → List Char → List Char
  | _, [] => []
  | 0, s => s
  | fuel + 1, c :: rest =>
      match longestLen r (c :: rest) 0 none with
      | some (n + 1) => repl ++ subFuel r repl fuel (List.drop n rest)
      | _ => c :: subFuel r repl fuel rest

/-- `re.sub(pattern, repl, s)`, with the leftmost-longest convention for
match spans; a (never occurring here) empty match is skipped to keep the
scan total. -/
def subLL (r : RE) (repl : List Char) (s : List Char) : List Char :=
  subFuel r repl s.length s

/-- One scan of `str.replace(pat, repl)` (all non-overlapping leftmost
occurrences), structurally recursive on a fuel argument; an empty `pat`
(never passed here) is skipped rather than Python's interleaving. -/
def replaceFuel (pat repl : List Char) : Nat → List Char → List Char
  | _, [] => []
  | 0, s => s
  | fuel + 1, c :: rest =>
      if pat ≠ [] ∧ listStarts pat (c :: rest) then
        repl ++ replaceFuel pat repl fuel (List.drop (pat.length - 1) rest)
      else c :: replaceFuel pat repl fuel rest

/-- `str.replace(pat, repl)`. -/
def pyReplace (s pat repl : String) : String :=
  String.mk (replaceFuel pat.toList repl.toList s.toList.length s.toList)

/-- `s[:n]` on strings. -/
def takeStr (s : String) (n : Nat) : String :=
  String.mk (s.toList.take n)

/-- ASCII lower-casing of one character (models `str.lower()` /
`re.IGNORECASE` for the ASCII inputs considered here). -/
def asciiLower (c : Char) : Char :=
  if 'A' ≤ c ∧ c ≤ 'Z' then Char.ofNat (c.toNat + 32) else c

/-- ASCII upper-casing of one character (models `str.upper()`). -/
def asciiUpper (c : Char) : Char :=
  if 'a' ≤ c ∧ c ≤ 'z' then Char.ofNat (c.toNat - 32) else c

/-- `str.lower()`. -/
def lowerStr (s : String) : String :=
  String.mk (s.toList.map asciiLower)

/-- `str.upper()`. -/
def upperStr (s : String) : String :=
  String.mk (s.toList.map asciiUpper)

/-- Python's `\s` character class (ASCII whitespace plus the Unicode
whitespace code points). -/
def pyWs (c : Char) : Bool :=
  let n := c.toNat
  n = 0x20 ∨ n = 0x9 ∨ n = 0xa ∨ n = 0xd ∨ n = 0xb ∨ n = 0xc ∨
  (0x1c ≤ n ∧ n ≤ 0x1f) ∨ n = 0x85 ∨ n = 0xa0 ∨ n = 0x1680 ∨
  (0x2000 ≤ n ∧ n ≤ 0x200a) ∨ n = 0x2028 ∨ n = 0x2029 ∨ n = 0x202f ∨
  n = 0x205f ∨ n = 0x3000

/-- A case-insensitive literal character (`c` given in lowercase). -/
def ichr (c : Char) : RE := .cls fun x => asciiLower x == c

/-- A case-sensitive literal character. -/
def echr (c : Char) : RE := .cls fun x => x == c

/-- Case-insensitive literal word (written in lowercase). -/
def ilit (s : String) : RE :=
  s.toList.foldr (fun c acc => RE.seq (ichr c) acc) .eps

/-- Case-sensitive literal word. -/
def elit (s : String) : RE :=
  s.toList.foldr (fun c acc => RE.seq (echr c) acc) .eps

/-- `r+`. -/
def rePlus (r : RE) : RE := .seq r (.star r)

/-- `r?`. -/
def reOpt (r : RE) : RE := .alt r .eps

/-- `\s+`. -/
def ws1 : RE := rePlus (.cls pyWs)

/-- `\s*`. -/
def ws0 : RE := .star (.cls pyWs)

/-- `.` under the default flags: any character except a newline. -/
def reDot : RE := .cls fun c => c != '\n'

/-- `.+`. -/
def dotPlus : RE := rePlus reDot

/-- n-ary alternation of case-insensitive words. -/
def ialts : List String → RE
  | [] => .cls fun _ => false
  | [s] => ilit s
  | s :: rest => .alt (ilit s) (ialts rest)

/-- `[_\s-]` (the separator class of the api-key patterns). -/
def sepCls : RE := .cls fun c => c == '_' || pyWs c || c == '-'

/-- The `MALICIOUS_PATTERNS` list of `InputValidator`, in source order,
each with its pattern string (used in threat messages, truncated there to
50 characters). -/
def maliciousPatterns : List (String × RE) :=
  [ -- Direct injection attempts
    ("ignore\\s+(previous|prior|all|above)\\s+instructions?",
      .seq (ilit "ignore") (.seq ws1 (.seq
        (ialts ["previous", "prior", "all", "above"]) (.seq ws1
        (.seq (ilit "instruction") (reOpt (ichr 's'))))))),
    ("disregard\\s+(previous|prior|all|above)",
      .seq (ilit "disregard") (.seq ws1
        (ialts ["previous", "prior", "all", "above"]))),
    ("forget\\s+(previous|prior|all|above)",
      .seq (ilit "forget") (.seq ws1
        (ialts ["previous", "prior", "all", "above"]))),
    ("new\\s+instructions?:\\s*",
      .seq (ilit "new") (.seq ws1 (.seq (ilit "instruction")
        (.seq (reOpt (ichr 's')) (.seq (ichr ':') ws0))))),
    ("system\\s*:\\s*you\\s+are",
      .seq (ilit "system") (.seq ws0 (.seq (ichr ':') (.seq ws0
        (.seq (ilit "you") (.seq ws1 (ilit "are"))))))),
    ("from\\s+now\\s+on",
      .seq (ilit "from") (.seq ws1 (.seq (ilit "now") (.seq ws1
        (ilit "on"))))),
    ("you\\s+must\\s+(now|always)",
      .seq (ilit "you") (.seq ws1 (.seq (ilit "must") (.seq ws1
        (ialts ["now", "always"]))))),
    -- Jailbreak attempts
    ("pretend\\s+(you|to)\\s+(are|be)",
      .seq (ilit "pretend") (.seq ws1 (.seq (ialts ["you", "to"])
        (.seq ws1 (ialts ["are", "be"]))))),
    ("act\\s+as\\s+(if|though)",
      .seq (ilit "act") (.seq ws1 (.seq (ilit "as") (.seq ws1
        (ialts ["if", "though"]))))),
    ("roleplay\\s+as",
      .seq (ilit "roleplay") (.seq ws1 (ilit "as"))),
    ("DAN\\s+mode", .seq (ilit "dan") (.seq ws1 (ilit "mode"))),
    ("developer\\s+mode", .seq (ilit "developer") (.seq ws1 (ilit "mode"))),
    ("jailbreak", ilit "jailbreak"),
    -- Command injection
    (";\\s*(rm|del|format|curl|wget)",
      .seq (ichr ';') (.seq ws0
        (ialts ["rm", "del", "format", "curl", "wget"]))),
    ("\\|\\s*(rm|del|format|curl|wget)",
      .seq (ichr '|') (.seq ws0
        (ialts ["rm", "del", "format", "curl", "wget"]))),
    ("&&\\s*(rm|del|format|curl|wget)",
      .seq (ilit "&&") (.seq ws0
        (ialts ["rm", "del", "format", "curl", "wget"]))),
    ("`[^`]*`",
      .seq (ichr '`') (.seq (.star (.cls fun c => c != '`')) (ichr '`'))),
    ("\\$\\([^\\)]*\\)",
      .seq (ichr '$') (.seq (ichr '(')
        (.seq (.star (.cls fun c => c != ')')) (ichr ')')))),
    -- Data exfiltration attempts
    ("send\\s+.+\\s+to\\s+https?://",
      .seq (ilit "send") (.seq ws1 (.seq dotPlus (.seq ws1 (.seq (ilit "to")
        (.seq ws1 (.seq (ilit "http") (.seq (reOpt (ichr 's'))
          (ilit "://"))))))))),
    ("post\\s+.+\\s+to\\s+https?://",
      .seq (ilit "post") (.seq ws1 (.seq dotPlus (.seq ws1 (.seq (ilit "to")
        (.seq ws1 (.seq (ilit "http") (.seq (reOpt (ichr 's'))
          (ilit "://"))))))))),
    ("exfiltrate", ilit "exfiltrate"),
    ("extract\\s+.+\\s+(and\\s+)?send",
      .seq (ilit "extract") (.seq ws1 (.seq dotPlus (.seq ws1
        (.seq (reOpt (.seq (ilit "and") ws1)) (ilit "send")))))),
    ("curl\\s+.+\\s+https?://",
      .seq (ilit "curl") (.seq ws1 (.seq dotPlus (.seq ws1
        (.seq (ilit "http") (.seq (reOpt (ichr 's')) (ilit "://"))))))),
    ("wget\\s+.+\\s+https?://",
      .seq (ilit "wget") (.seq ws1 (.seq dotPlus (.seq ws1
        (.seq (ilit "http") (.seq (reOpt (ichr 's')) (ilit "://"))))))),
    -- API key extraction
    ("api[_\\s-]?key",
      .seq (ilit "api") (.seq (reOpt sepCls) (ilit "key"))),
    ("secret[_\\s-]?key",
      .seq (ilit "secret") (.seq (reOpt sepCls) (ilit "key"))),
    ("access[_\\s-]?token",
      .seq (ilit "access") (.seq (reOpt sepCls) (ilit "token"))),
    ("auth[_\\s-]?token",
      .seq (ilit "auth") (.seq (reOpt sepCls) (ilit "token"))),
    ("password", ilit "password"),
    ("credentials", ilit "credentials"),
    -- File system access
    ("\\.\\./", ilit "../"),
    ("\\/etc\\/", ilit "/etc/"),
    ("\\/root\\/", ilit "/root/"),
    ("\\.ssh", ilit ".ssh"),
    ("\\.env", ilit ".env"),
    -- Prompt leaking
    ("show\\s+(me\\s+)?(your|the)\\s+(system\\s+)?prompt",
      .seq (ilit "show") (.seq ws1 (.seq (reOpt (.seq (ilit "me") ws1))
        (.seq (ialts ["your", "the"]) (.seq ws1
          (.seq (reOpt (.seq (ilit "system") ws1)) (ilit "prompt"))))))),
    ("what\\s+(is|are)\\s+your\\s+(system\\s+)?instructions",
      .seq (ilit "what") (.seq ws1 (.seq (ialts ["is", "are"]) (.seq ws1
        (.seq (ilit "your") (.seq ws1
          (.seq (reOpt (.seq (ilit "system") ws1))
            (ilit "instructions")))))))),
    ("repeat\\s+(your|the)\\s+(system\\s+)?prompt",
      .seq (ilit "repeat") (.seq ws1 (.seq (ialts ["your", "the"])
        (.seq ws1 (.seq (reOpt (.seq (ilit "system") ws1))
          (ilit "prompt")))))),
    ("print\\s+(your|the)\\s+(system\\s+)?prompt",
      .seq (ilit "print") (.seq ws1 (.seq (ialts ["your", "the"])
        (.seq ws1 (.seq (reOpt (.seq (ilit "system") ws1))
          (ilit "prompt"))))))]

/-- `DANGEROUS_CHARS`, in source order. -/
def dangerousChars : List String :=
  ["<script", "</script", "javascript:", "onerror=", "onload=",
   "$\x7b", "\x7d", "\x7b\x7b", "\x7d\x7d", "<!--", "-->"]

/-- The character class of `SUBSTITUTION_PATTERNS`: control characters,
zero-width characters, word joiner and invisible separators. -/
def substChar (c : Char) : Bool :=
  let n := c.toNat
  n ≤ 0x1f ∨ (0x7f ≤ n ∧ n ≤ 0x9f) ∨ (0x200b ≤ n ∧ n ≤ 0x200d) ∨
  n = 0xfeff ∨ (0x2060 ≤ n ∧ n ≤ 0x2069)

/-- `self.substitution_regex.search(...)` truthiness. -/
def substSearch (s : String) : Bool := s.toList.any substChar

/-- `self.substitution_regex.sub('', ...)`: every match of the class is a
single character, so the global substitution deletes them all. -/
def substRemove (s : String) : String :=
  String.mk (s.toList.filter fun c => !substChar c)

/-- `ThreatLevel` enum. -/
inductive ThreatLevel where
  | safe
  | suspicious
  | dangerous
  | critical
deriving Repr, DecidableEq

/-- Position in the `ThreatLevel` enum declaration order (the order the
spec compares threat levels by: safe < suspicious < dangerous < critical). -/
def ThreatLevel.rank : ThreatLevel → Nat
  | .safe => 0
  | .suspicious => 1
  | .dangerous => 2
  | .critical => 3

/-- `ValidationResult` dataclass. -/
structure ValidationResult where
  isValid : Bool
  threatLevel : ThreatLevel
  sanitizedInput : String
  threatsDetected : List String
  confidence : ℚ
deriving Repr, DecidableEq

/-- The configuration fields of `InputValidator.__init__`. -/
structure ValidatorConfig where
  maxInputLength : Nat
  enableSemanticAnalysis : Bool
  strictMode : Bool
deriving Repr, DecidableEq

/-- Defaults: `max_input_length=10000`, semantic analysis on, strict off. -/
def defaultValidator : ValidatorConfig :=
  { maxInputLength := 10000, enableSemanticAnalysis := true
    strictMode := false }

/-- `InputValidator._semantic_analysis(text, context)` (the `context`
argument is unused by the source, and kept here for fidelity). -/
def semanticAnalysis (text : String) (_context : String) : List String :=
  let lowerText := lowerStr text
  let instructionIndicators :=
    ["you are", "you must", "you should", "you will",
     "always", "never", "from now on", "henceforth",
     "system:", "assistant:", "user:"]
  let threats := instructionIndicators.filterMap fun ind =>
    if strIn ind lowerText then
      some ("Instruction-like pattern: '" ++ ind ++ "'")
    else none
  let imperativeVerbs :=
    ["ignore", "disregard", "forget", "execute", "run",
     "send", "post", "delete", "remove", "extract"]
  let imperativeCount :=
    (imperativeVerbs.filter fun v => strIn v lowerText).length
  let threats := threats ++
    (if imperativeCount ≥ 3 then
      ["High frequency of imperative verbs (" ++ toString imperativeCount
        ++ ")"]
     else [])
  -- url_pattern = r'https?://[^\s]+' is searched without IGNORECASE
  let urlRE := .seq (elit "http") (.seq (reOpt (echr 's'))
    (.seq (elit "://") (rePlus (RE.cls fun c => !pyWs c))))
  let urls := reSearch urlRE text.toList
  let threats := threats ++
    (if urls && (["send", "post", "forward", "transmit"].any
        fun v => strIn v lowerText) then
      ["Potential data exfiltration (URL + transfer verb)"]
     else [])
  threats

/-- Working state threaded through the steps of `validate`: accumulated
threats, the running threat level, the text being sanitized in place, and
the running confidence. -/
structure ValState where
  threats : List String
  level : ThreatLevel
  text : String
  confidence : ℚ
deriving Repr, DecidableEq

/-- Step 3 of `validate`: one pass over `MALICIOUS_PATTERNS`; a match
appends a threat, sets the level to CRITICAL (unconditionally), sets
confidence to 0.95 and filters the pattern out of the text. -/
def patternStep (vs : ValState) (pat : String × RE) : ValState :=
  if reSearch pat.2 vs.text.toList then
    { threats := vs.threats ++
        ["Malicious pattern detected: " ++ pat.1.take 50]
      level := .critical
      text := String.mk (subLL pat.2 "[FILTERED]".toList vs.text.toList)
      confidence := (95 : ℚ)/100 }
  else vs

/-- Step 4 of `validate`: one pass over `DANGEROUS_CHARS`; a (case
insensitive) hit appends a threat, assigns the level DANGEROUS — note:
assigns, even over an earlier CRITICAL — replaces the as-written and
upper-case forms of the sequence and sets confidence to 0.85. -/
def dangerStep (vs : ValState) (seqStr : String) : ValState :=
  if strIn (lowerStr seqStr) (lowerStr vs.text) then
    { threats := vs.threats ++ ["Dangerous sequence detected: " ++ seqStr]
      level := .dangerous
      text := pyReplace (pyReplace vs.text seqStr "[FILTERED]")
        (upperStr seqStr) "[FILTERED]"
      confidence := (85 : ℚ)/100 }
  else vs

/-- Steps 1–5 of `InputValidator.validate` on nonempty input: length
truncation, substitution-character stripping, malicious-pattern filtering,
dangerous-sequence filtering, semantic analysis. -/
def validateCore (cfg : ValidatorConfig) (inputText : String)
    (context : String) : ValState :=
  let vs : ValState := { threats := [], level := .safe, text := inputText
                         confidence := 1 }
  -- 1. Length validation
  let vs := if inputText.length > cfg.maxInputLength then
      { threats := vs.threats ++ ["Input too long"]
        level := .suspicious
        text := takeStr inputText cfg.maxInputLength
        confidence := (9 : ℚ)/10 }
    else vs
  -- 2. Character substitution attacks
  let vs := if substSearch vs.text then
      { threats := vs.threats ++ ["Character substitution attack detected"]
        level := .dangerous
        text := substRemove vs.text
        confidence := (8 : ℚ)/10 }
    else vs
  -- 3. Pattern matching for known attacks
  let vs := maliciousPatterns.foldl patternStep vs
  -- 4. Dangerous characters/sequences
  let vs := dangerousChars.foldl dangerStep vs
  -- 5. Semantic analysis
  if cfg.enableSemanticAnalysis then
    let semanticThreats := semanticAnalysis vs.text context
    if semanticThreats ≠ [] then
      { threats := vs.threats ++ semanticThreats
        level := if vs.level = .safe then .suspicious else vs.level
        text := vs.text
        confidence := min vs.confidence ((7 : ℚ)/10) }
    else vs
  else vs

/-- The final `is_valid` computation of `validate`: valid when SAFE, when
SUSPICIOUS outside strict mode, or when DANGEROUS ("Allow with
sanitization"); CRITICAL always invalidates. -/
def decideValid (strictMode : Bool) (level : ThreatLevel) : Bool :=
  let isValid := (level = .safe) || ((level = .suspicious) && !strictMode)
    || (level = .dangerous)
  if level = .critical then false else isValid

/-- `InputValidator.validate(input_text, context)`. -/
def validate (cfg : ValidatorConfig) (inputText : String)
    (context : String) : ValidationResult :=
  if inputText = "" then
    { isValid := true, threatLevel := .safe, sanitizedInput := ""
      threatsDetected := [], confidence := 1 }
  else
    let vs := validateCore cfg inputText context
    { isValid := decideValid cfg.strictMode vs.level
      threatLevel := vs.level
      sanitizedInput := vs.text
      threatsDetected := vs.threats
      confidence := vs.confidence }

/-! ## access_control.py -/

/-- `Permission` enum. -/
inductive Permission where
  | agentDeploy | agentKill | agentPause | agentResume | agentView
  | budgetView | budgetModify | budgetOverride
  | systemAdmin | systemConfig | emergencyStop
  | dataRead | dataWrite | dataDelete
  | apiCall | apiAdmin
deriving Repr, DecidableEq

/-- `Role` enum. -/
inductive Role where
  | admin | operator | agent | readonly | guest
deriving Repr, DecidableEq

/-- `ROLE_PERMISSIONS` (the permission sets, as lists). -/
def rolePermissions : Role → List Permission
  | .admin =>
      [.agentDeploy, .agentKill, .agentPause, .agentResume, .agentView,
       .budgetView, .budgetModify, .budgetOverride,
       .systemAdmin, .systemConfig, .emergencyStop,
       .dataRead, .dataWrite, .dataDelete, .apiCall, .apiAdmin]
  | .operator =>
      [.agentDeploy, .agentPause, .agentResume, .agentView,
       .budgetView, .dataRead, .dataWrite, .apiCall]
  | .agent => [.agentView, .dataRead, .dataWrite, .apiCall]
  | .readonly => [.agentView, .budgetView, .dataRead]
  | .guest => [.agentView]

/-- `APIKey` dataclass (timestamps as seconds). -/
structure APIKey where
  keyId : String
  keyHash : String
  name : String
  role : Role
  createdAt : ℚ
  expiresAt : Option ℚ
  lastUsed : Option ℚ
  useCount : Nat
  enabled : Bool
  ipWhitelist : Option (List String)
  scopes : List Permission
deriving Repr, DecidableEq

/-- `APIKey.is_valid()` at clock reading `now`. -/
def APIKey.isValidAt (k : APIKey) (now : ℚ) : Bool :=
  if k.enabled = false then false
  else match k.expiresAt with
    | some e => if now > e then false else true
    | none => true

/-- `Session` dataclass. -/
structure Session where
  sessionId : String
  keyId : String
  role : Role
  permissions : List Permission
  createdAt : ℚ
  expiresAt : ℚ
  lastActivity : ℚ
  ipAddress : Option String
  userAgent : Option String
deriving Repr, DecidableEq

/-- `Session.is_valid()` at clock reading `now`: only the expiry is
checked — the owning key's `enabled` flag is not consulted. -/
def Session.isValidAt (s : Session) (now : ℚ) : Bool :=
  decide (now < s.expiresAt)

/-- State of an `AccessController`. -/
structure ACState where
  sessionTimeout : ℚ
  maxSessionsPerKey : Nat
  enableIpWhitelist : Bool
  apiKeys : List (String × APIKey)
  sessions : List (String × Session)
  accessAttempts : Nat
  accessGranted : Nat
  accessDenied : Nat
deriving Repr, DecidableEq

/-- `AccessController.__init__` defaults (60-minute session timeout,
5 sessions per key, IP whitelisting off). -/
def mkAccessController : ACState :=
  { sessionTimeout := 3600, maxSessionsPerKey := 5
    enableIpWhitelist := false, apiKeys := [], sessions := []
    accessAttempts := 0, accessGranted := 0, accessDenied := 0 }

/-- `AccessController.create_api_key`.  `locked` records whether the
calling thread already holds `self.lock`; the method's own
`with self.lock:` then blocks forever (`threading.Lock` is not
reentrant), modelled as `.error .deadlock`.  `keyId`/`plaintext` stand for
the `secrets.token_urlsafe` draws and `keyHash` for
`sha256(plaintext)`, `now` for `safe_datetime_now()`. -/
def createApiKey (locked : Bool) (st : ACState) (name : String) (role : Role)
    (expiresDays : Option ℚ) (ipWhitelist : Option (List String))
    (keyId plaintext keyHash : String) (now : ℚ) :
    Except PyError (String × String × ACState) :=
  if locked then .error .deadlock
  else
    let expiresAt := expiresDays.map fun d => now + d * 86400
    let apiKey : APIKey :=
      { keyId := keyId, keyHash := keyHash, name := name, role := role
        createdAt := now, expiresAt := expiresAt, lastUsed := none
        useCount := 0, enabled := true, ipWhitelist := ipWhitelist
        scopes := rolePermissions role }
    .ok (keyId, plaintext,
      { st with apiKeys := st.apiKeys ++ [(keyId, apiKey)] })

/-- Disable the key bound to `keyId`. -/
def disableKey (ls : List (String × APIKey)) (keyId : String) :
    List (String × APIKey) :=
  ls.map fun p => if p.1 = keyId then (p.1, { p.2 with enabled := false }) else p

/-- `AccessController.rotate_api_key(key_id)`.  The method enters
`with self.lock:`, raises `ValueError` for an unknown key, otherwise
disables the old key in place and calls `self.create_api_key(...)` —
which re-acquires the already-held non-reentrant lock, so the call
deadlocks and never returns. -/
def rotateApiKey (st : ACState) (keyId : String)
    (freshId freshPlain freshHash : String) (now : ℚ) :
    Except PyError (String × String × ACState) :=
  -- with self.lock: (acquired here; held for the rest of the body)
  match st.apiKeys.lookup keyId with
  | none => .error .valueError
  | some oldKey =>
      let st := { st with apiKeys := disableKey st.apiKeys keyId }
      createApiKey true st (oldKey.name ++ " (rotated)") oldKey.role
        (oldKey.expiresAt.map fun e => (e - now) / 86400)
        oldKey.ipWhitelist freshId freshPlain freshHash now

/-- `AccessController.check_permission(session_id, permission)` at clock
reading `now`; returns the `(authorized, error)` pair and the updated
state (an expired session is deleted, a live one refreshed). -/
def checkPermission (st : ACState) (now : ℚ) (sessionId : String)
    (permission : Permission) : (Bool × Option String) × ACState :=
  match st.sessions.lookup sessionId with
  | none => ((false, some "Invalid session"), st)
  | some session =>
      if session.isValidAt now = false then
        ((false, some "Session expired"),
         { st with sessions := st.sessions.filter fun p => p.1 ≠ sessionId })
      else
        let st := { st with sessions := st.sessions.map fun p =>
          if p.1 = sessionId then (p.1, { p.2 with lastActivity := now })
          else p }
        if permission ∉ session.permissions then
          ((false, some "Permission denied"), st)
        else ((true, none), st)

/-! ## monitor.py and audit.py -/

/-- The `datetime(2025, 1, 1)` fallback, as epoch seconds. -/
def fallback2025 : ℚ := 1735689600

/-- The file-local `safe_datetime_now` of **both** monitor.py and
audit.py: its `try` body is `return safe_datetime_now()` — the function
calls *itself* instead of `datetime.now()`.  Each recursive call happens
inside the `try`, and the `except (OSError, OverflowError, ValueError)`
clause does not catch the `RecursionError` raised when the interpreter's
recursion limit (modelled by `fuel`) is exhausted, so every call raises
`RecursionError`. -/
def brokenSafeDatetimeNow : Nat → Except PyError ℚ
  | 0 => .error .recursionError
  | fuel + 1 =>
      match brokenSafeDatetimeNow fuel with
      | .ok d => .ok d
      | .error e =>
          if e = .osError ∨ e = .overflowError ∨ e = .valueError then
            .ok fallback2025
          else .error e

/-- `AlertLevel` enum. -/
inductive AlertLevel where
  | info | warning | critical | emergency
deriving Repr, DecidableEq

/-- `AnomalyType` enum. -/
inductive AnomalyType where
  | costSpike | authFailures | budgetViolation | suspiciousInput
  | sandboxViolation | rateLimitExceeded | unusualPattern
  | dataExfiltration | agentCrash | systemOverload
deriving Repr, DecidableEq

/-- `SecurityEvent` dataclass (its metadata dict is modelled as the
numeric entries actually read back by the monitor). -/
structure SecurityEvent where
  timestamp : ℚ
  eventType : AnomalyType
  level : AlertLevel
  description : String
  source : String
  metadata : List (String × ℚ)
  acknowledged : Bool
deriving Repr, DecidableEq

/-- `Alert` dataclass. -/
structure Alert where
  alertId : String
  timestamp : ℚ
  level : AlertLevel
  title : String
  description : String
  events : List SecurityEvent
  actionable : Bool
  actionRequired : Option String
deriving Repr, DecidableEq

/-- State of a `SecurityMonitor`. -/
structure MonitorState where
  costSpikeThreshold : ℚ
  authFailureThreshold : Nat
  windowMinutes : Nat
  enableAlerts : Bool
  events : List SecurityEvent
  alerts : List Alert
  costHistory : List (ℚ × ℚ)
  authFailures : List ℚ
  sandboxViolations : List ℚ
  totalEvents : Nat
  totalAlerts : Nat
deriving Repr, DecidableEq

/-- `SecurityMonitor.__init__` defaults (spike threshold 2.0, 5 auth
failures, 15-minute window, alerts on). -/
def mkSecurityMonitor : MonitorState :=
  { costSpikeThreshold := 2, authFailureThreshold := 5, windowMinutes := 15
    enableAlerts := true, events := [], alerts := [], costHistory := []
    authFailures := [], sandboxViolations := [], totalEvents := 0
    totalAlerts := 0 }

/-- `deque(maxlen=n)` append. -/
def appendMaxlen {α : Type} (n : Nat) (xs : List α) (x : α) : List α :=
  let ys := xs ++ [x]
  if ys.length > n then ys.drop (ys.length - n) else ys

/-- `SecurityMonitor._create_alert_from_event`, reached from
`record_event` while `record_event` already holds `self.lock`: its own
`with self.lock:` re-acquires the non-reentrant lock, so this path
deadlocks (before that it reads the clock through the manager-style
timestamp, which is irrelevant by then). -/
def createAlertFromEvent (_st : MonitorState) (_event : SecurityEvent) :
    Except PyError MonitorState :=
  .error .deadlock

/-- `SecurityMonitor.record_event(event)`.  `locked` records whether the
caller already holds `self.lock` (as `record_cost` does). -/
def recordEvent (locked : Bool) (st : MonitorState) (event : SecurityEvent) :
    Except PyError MonitorState :=
  if locked then .error .deadlock
  else
    let st := { st with
      events := appendMaxlen 1000 st.events event
      totalEvents := st.totalEvents + 1
      authFailures :=
        if event.eventType = .authFailures then
          appendMaxlen 100 st.authFailures event.timestamp
        else st.authFailures
      sandboxViolations :=
        if event.eventType = .sandboxViolation then
          appendMaxlen 100 st.sandboxViolations event.timestamp
        else st.sandboxViolations
      costHistory :=
        if event.eventType = .costSpike then
          appendMaxlen 100 st.costHistory
            (event.timestamp, ((event.metadata.lookup "cost").getD 0))
        else st.costHistory }
    if event.level = .critical ∨ event.level = .emergency then
      createAlertFromEvent st event
    else .ok st

/-- `statistics.mean` of a list of rationals. -/
def listMean (xs : List ℚ) : ℚ := xs.sum / xs.length

/-- `SecurityMonitor.record_cost(agent_id, cost)`.  The first statement is
`now = safe_datetime_now()`, the module's broken self-recursive clock, so
the call raises `RecursionError` before anything else happens; the rest of
the body (translated below it) is unreachable — and would itself deadlock
on a spike, since `record_cost` calls `record_event` while holding
`self.lock`. -/
def recordCost (fuel : Nat) (st : MonitorState) (agentId : String)
    (cost : ℚ) : Except PyError MonitorState :=
  match brokenSafeDatetimeNow fuel with
  | .error e => .error e
  | .ok now =>
      -- with self.lock:
      let st :=
        { st with costHistory := appendMaxlen 100 st.costHistory (now, cost) }
      if st.costHistory.length ≥ 10 then
        let recentCosts :=
          (st.costHistory.drop (st.costHistory.length - 10)).map Prod.snd
        let avgCost := listMean recentCosts
        if cost > avgCost * st.costSpikeThreshold then
          recordEvent true st
            { timestamp := now, eventType := .costSpike
              level := .warning
              description := "Cost spike detected"
              source := agentId
              metadata := [("cost", cost), ("average", avgCost)]
              acknowledged := false }
        else .ok st
      else .ok st

/-! ## audit.py: AuditLogger -/

/-- `AuditEventType` enum (the members used by the security manager). -/
inductive AuditEventType where
  | authSuccess | authFailure | authKeyCreated
  | authzGranted | authzDenied
  | agentDeployed
  | budgetExceeded
  | inputBlocked | sandboxViolation
deriving Repr, DecidableEq

/-- `AuditEvent` dataclass (details dict modelled as opaque). -/
structure AuditEvent where
  timestamp : ℚ
  eventType : AuditEventType
  actor : String
  action : String
  resource : Option String
  result : String
  ipAddress : Option String
  sessionId : Option String
deriving Repr, DecidableEq

/-- State of an `AuditLogger` (file output is outside the model; the
in-memory buffer and counters are kept). -/
structure AuditState where
  eventBuffer : List AuditEvent
  maxBufferSize : Nat
  totalEvents : Nat
deriving Repr, DecidableEq

/-- `AuditLogger.log(...)`: the event's timestamp is
`safe_datetime_now()` — audit.py's broken self-recursive copy — so every
call raises `RecursionError` before the event is built. -/
def auditLog (fuel : Nat) (st : AuditState) (eventType : AuditEventType)
    (actor action : String) (resource : Option String) (result : String)
    (ipAddress sessionId : Option String) : Except PyError AuditState :=
  match brokenSafeDatetimeNow fuel with
  | .error e => .error e
  | .ok now =>
      let event : AuditEvent :=
        { timestamp := now, eventType := eventType, actor := actor
          action := action, resource := resource, result := result
          ipAddress := ipAddress, sessionId := sessionId }
      let buffer := st.eventBuffer ++ [event]
      let buffer := if buffer.length > st.maxBufferSize then buffer.drop 1
        else buffer
      .ok { st with eventBuffer := buffer, totalEvents := st.totalEvents + 1 }

/-! ## sandbox.py

`subprocess` is outside the program: it is modelled by a `ProcessOracle`
describing, for each command, how the spawned child would behave (or that
`Popen` raises).  `_is_path_allowed` resolves paths against the real file
system, so it too is part of the oracle. -/

/-- `SandboxMode` enum. -/
inductive SandboxMode where
  | noSandbox | basic | strict | paranoid
deriving Repr, DecidableEq

/-- The default `blocked_commands` list from `SandboxConfig.__post_init__`. -/
def defaultBlockedCommands : List String :=
  ["rm", "rmdir", "del", "format",
   "dd", "mkfs",
   "curl", "wget", "nc", "netcat", "telnet",
   "ssh", "scp", "ftp", "sftp",
   "sudo", "su", "passwd",
   "chmod", "chown", "chgrp",
   "kill", "killall", "pkill",
   "reboot", "shutdown", "halt", "poweroff",
   "systemctl", "service",
   "iptables", "ifconfig", "ip",
   "mount", "umount"]

/-- `SandboxConfig` dataclass, after `__post_init__`. -/
structure SandboxConfig where
  mode : SandboxMode
  allowNetwork : Bool
  allowFileRead : Bool
  allowFileWrite : Bool
  allowedReadPaths : List String
  allowedWritePaths : List String
  blockedCommands : List String
  maxExecutionTime : ℚ
  maxMemoryMb : Nat
  maxCpuPercent : Nat
  maxOutputSize : Nat
deriving Repr, DecidableEq

/-- Default `SandboxConfig()`: strict mode, no network, read-only files,
30-second timeout, 512 MB, 1 MB output cap, default block list. -/
def defaultSandboxConfig : SandboxConfig :=
  { mode := .strict, allowNetwork := false, allowFileRead := true
    allowFileWrite := false, allowedReadPaths := [], allowedWritePaths := []
    blockedCommands := defaultBlockedCommands, maxExecutionTime := 30
    maxMemoryMb := 512, maxCpuPercent := 50, maxOutputSize := 1048576 }

/-- `ExecutionResult` dataclass. -/
structure ExecutionResult where
  success : Bool
  stdout : String
  stderr : String
  exitCode : Int
  executionTime : ℚ
  violations : List String
  killed : Bool
  killReason : Option String
deriving Repr, DecidableEq

/-- Counters of a `SecureSandbox` instance. -/
structure SandboxState where
  config : SandboxConfig
  executions : Nat
  violationCount : Nat
  blockedCount : Nat
deriving Repr, DecidableEq

/-- A fresh `SecureSandbox(config)`. -/
def mkSandbox (config : SandboxConfig) : SandboxState :=
  { config := config, executions := 0, violationCount := 0
    blockedCount := 0 }

/-- Behaviour of one spawned child process: how long it runs, its exit
code and outputs, and what `communicate()` returns after `kill()`. -/
structure ProcessRun where
  duration : ℚ
  exitCode : Int
  stdout : String
  stderr : String
  killExitCode : Int
  stdoutAfterKill : String
  stderrAfterKill : String

/-- The environment of the sandbox: what `subprocess.Popen` would do for
a command (`none` = `Popen` raises, e.g. `FileNotFoundError`), and how
`_is_path_allowed` resolves a path against the workspace and the allowed
path lists. -/
structure ProcessOracle where
  spawn : List String → Option ProcessRun
  pathAllowed : String → Bool

/-- The three `_sanitize_output` patterns (no `re.IGNORECASE`). -/
def sanitizePatterns : List RE :=
  let alnumDash : RE := .cls fun c => c.isAlpha || c.isDigit || c == '_'
    || c == '-'
  let alnum : RE := .cls fun c => c.isAlpha || c.isDigit
  [ -- r'[a-zA-Z0-9_-]{32,}'
    (List.replicate 32 alnumDash).foldr RE.seq (.star alnumDash),
    -- r'sk-[a-zA-Z0-9]{32,}'
    .seq (elit "sk-") ((List.replicate 32 alnum).foldr RE.seq (.star alnum)),
    -- r'Bearer\s+[a-zA-Z0-9_-]+'
    .seq (elit "Bearer") (.seq ws1 (rePlus alnumDash))]

/-- `re.findall` as the list of leftmost-longest matches (fuel-structural
like `subFuel`). -/
def findFuel (r : RE) : Nat → List Char → List (List Char)
  | _, [] => []
  | 0, _ => []
  | fuel + 1, c :: rest =>
      match longestLen r (c :: rest) 0 none with
      | some (n + 1) => (c :: rest).take (n + 1)
          :: findFuel r fuel (List.drop n rest)
      | _ => findFuel r fuel rest

/-- `SecureSandbox._sanitize_output`: each pattern is matched against the
**original** output, and matches longer than 20 characters that are not
pure digits are replaced by `[REDACTED]` in the accumulator. -/
def sanitizeOutput (output : String) : String :=
  sanitizePatterns.foldl
    (fun sanitized pat =>
      (findFuel pat output.toList.length output.toList).foldl
        (fun san m =>
          if m.length > 20 ∧ ¬ (m ≠ [] ∧ m.all Char.isDigit) then
            pyReplace san (String.mk m) "[REDACTED]"
          else san)
        sanitized)
    output

/-- The network indicator substrings. -/
def networkIndicators : List String :=
  ["http://", "https://", "ftp://", "://", "@"]

/-- Python's `s.startswith(pre)` over the character list (Lean core's
`String.startsWith` does not reduce definitionally). -/
def pyStartsWith (s pre : String) : Bool :=
  listStarts pre.toList s.toList

/-- The part of `execute_command` from `subprocess.Popen` onward: the
`try:` block around the spawn, the timeout/kill handling, output
truncation and sanitization.  `spawned` is what `Popen` produced (`none`
= it raised, landing in the outer `except` branch). -/
def runChild (st : SandboxState) (violations : List String)
    (spawned : Option ProcessRun) : ExecutionResult × SandboxState × Bool :=
  match spawned with
  | none =>
      -- except branch: Popen raised; no child exists
      ({ success := false, stdout := ""
         stderr := "Execution error"
         exitCode := -1, executionTime := 0
         violations := violations ++ ["execution_error"]
         killed := false, killReason := none }, st, false)
  | some run =>
      let timedOut := run.duration > st.config.maxExecutionTime
      let killed := timedOut
      let killReason : Option String :=
        if timedOut then some "Execution timeout" else none
      let violations :=
        if timedOut then violations ++ ["timeout_exceeded"]
        else violations
      let st :=
        if timedOut then
          { st with violationCount := st.violationCount + 1 }
        else st
      let stdoutStr := if timedOut then run.stdoutAfterKill
        else run.stdout
      let stderrStr := if timedOut then run.stderrAfterKill
        else run.stderr
      let exitCode := if timedOut then run.killExitCode
        else run.exitCode
      -- Limit output size
      let tooLong := stdoutStr.length > st.config.maxOutputSize
      let stdoutStr := if tooLong then
          takeStr stdoutStr st.config.maxOutputSize
            ++ "\n[OUTPUT TRUNCATED]"
        else stdoutStr
      let violations := if tooLong then
          violations ++ ["output_size_exceeded"]
        else violations
      let stderrStr := if stderrStr.length > st.config.maxOutputSize
        then takeStr stderrStr st.config.maxOutputSize
          ++ "\n[OUTPUT TRUNCATED]"
        else stderrStr
      -- Sanitize output
      let stdoutStr := sanitizeOutput stdoutStr
      let stderrStr := sanitizeOutput stderrStr
      let success := exitCode = 0 ∧ killed = false
      -- execution_time = time.time() - start_time: the child's runtime,
      -- capped at the timeout when it was killed
      let executionTime := if timedOut then st.config.maxExecutionTime
        else run.duration
      ({ success := success, stdout := stdoutStr
         stderr := stderrStr, exitCode := exitCode
         executionTime := executionTime, violations := violations
         killed := killed, killReason := killReason }, st, true)

/-- `SecureSandbox.execute_command(command, stdin, env)`.  Returns the
`ExecutionResult`, the updated counters, and whether a child process was
spawned at all. -/
def executeCommand (st : SandboxState) (oracle : ProcessOracle)
    (command : List String) (_stdin : Option String) :
    ExecutionResult × SandboxState × Bool :=
  let st := { st with executions := st.executions + 1 }
  -- Validate command
  match command with
  | [] =>
      ({ success := false, stdout := "", stderr := "Empty command"
         exitCode := -1, executionTime := 0, violations := ["empty_command"]
         killed := false, killReason := none }, st, false)
  | cmd0 :: args =>
      -- Check blocked commands
      let cmdName := lowerStr cmd0
      if cmdName ∈ st.config.blockedCommands then
        let st := { st with blockedCount := st.blockedCount + 1
                            violationCount := st.violationCount + 1 }
        ({ success := false, stdout := ""
           stderr := "Command '" ++ cmdName ++ "' is blocked"
           exitCode := -1, executionTime := 0
           violations := ["blocked_command: " ++ cmdName]
           killed := false, killReason := none }, st, false)
      else
        -- Check for file access violations (args only)
        let pathViolations := args.filterMap fun arg =>
          if (strIn ".." arg || pyStartsWith arg "/")
              && !oracle.pathAllowed arg then
            some ("unauthorized_path: " ++ arg)
          else none
        -- Check for network access attempts (all of command)
        let netViolations :=
          if st.config.allowNetwork = false then
            command.filterMap fun arg =>
              if networkIndicators.any fun ind => strIn ind arg then
                some ("network_access_attempt: " ++ arg)
              else none
          else []
        let violations := pathViolations ++ netViolations
        let st := { st with
          violationCount := st.violationCount + violations.length }
        -- Block execution if critical violations
        if violations ≠ [] ∧
            (st.config.mode = .strict ∨ st.config.mode = .paranoid) then
          ({ success := false, stdout := ""
             stderr := "Sandbox violations"
             exitCode := -1, executionTime := 0, violations := violations
             killed := false, killReason := none }, st, false)
        else
          runChild st violations (oracle.spawn command)

/-! ## security_manager.py -/

/-- `SecurityCheckResult` dataclass. -/
structure SecurityCheckResult where
  allowed : Bool
  reason : Option String
  checksPassed : List String
  checksFailed : List String
  threatLevel : ThreatLevel
  costReserved : ℚ
deriving Repr, DecidableEq

/-- A Python value inside a config dict: a string, a nested dict, a list,
or anything else (non-string keys are not modelled; see C4's analysis,
which does not rely on them). -/
inductive ConfigVal where
  | str (s : String)
  | dict (entries : List (String × ConfigVal))
  | items (vals : List ConfigVal)
  | other

/-- `re.match(r'^[a-zA-Z0-9_.-]+$', key)` truthiness. -/
def keyOk (k : String) : Bool :=
  k ≠ "" && k.toList.all fun c =>
    c.isAlpha || c.isDigit || c == '_' || c == '.' || c == '-'

mutual

/-- The issue list produced by `InputValidator.validate_config`. -/
def validateConfigEntries (v : ValidatorConfig) :
    List (String × ConfigVal) → List String
  | [] => []
  | (k, val) :: rest =>
      (if keyOk k then [] else ["Invalid config key: " ++ k]) ++
      validateConfigVal v k val ++ validateConfigEntries v rest

/-- Issues contributed by one config value (string values are validated,
dicts recursed, list items checked; interpolated indices in the messages
are not modelled). -/
def validateConfigVal (v : ValidatorConfig) (k : String) :
    ConfigVal → List String
  | .str s =>
      if (validate v s ("config[" ++ k ++ "]")).isValid then []
      else ["Invalid config value for '" ++ k ++ "'"]
  | .dict entries => validateConfigEntries v entries
  | .items vals => validateConfigItems v k vals
  | .other => []

/-- Issues from the string items of a list value. -/
def validateConfigItems (v : ValidatorConfig) (k : String) :
    List ConfigVal → List String
  | [] => []
  | .str s :: rest =>
      (if (validate v s ("config[" ++ k ++ "]")).isValid then []
       else ["Invalid list item in '" ++ k ++ "'"]) ++
      validateConfigItems v k rest
  | _ :: rest => validateConfigItems v k rest

end

/-- `InputValidator.validate_config(config)`. -/
def validateConfig (v : ValidatorConfig)
    (config : List (String × ConfigVal)) : Bool × List String :=
  let issues := validateConfigEntries v config
  (issues.isEmpty, issues)

/-- `CostPrediction` dataclass (the `factors` dict is summarised by its
input/output cost entries). -/
structure CostPrediction where
  estimatedCost : ℚ
  confidence : ℚ
  tokenEstimate : Int
  modelUsed : String
  inputCost : ℚ
  outputCost : ℚ
deriving Repr, DecidableEq

/-- `MODEL_COSTS` (dollars per million tokens). -/
def modelCosts (model : String) : Option (ℚ × ℚ) :=
  if model = "claude-opus-4-5-20251101" then some (15, 75)
  else if model = "claude-sonnet-4-5-20250929" then some (3, 15)
  else if model = "claude-3-5-haiku-20241022" then some ((8 : ℚ)/10, 4)
  else none

/-- `BudgetEnforcer.predict_cost(input_tokens, output_tokens, model)`:
per-token costs plus a 10% buffer. -/
def predictCost (inputTokens outputTokens : Int) (model : String) :
    CostPrediction :=
  let model := if (modelCosts model).isSome then model
    else "claude-sonnet-4-5-20250929"
  let costs := (modelCosts model).getD (3, 15)
  let inputCost := (inputTokens : ℚ) / 1000000 * costs.1
  let outputCost := (outputTokens : ℚ) / 1000000 * costs.2
  let totalCost := inputCost + outputCost
  { estimatedCost := totalCost * ((11 : ℚ)/10)
    confidence := (9 : ℚ)/10
    tokenEstimate := inputTokens + outputTokens
    modelUsed := model
    inputCost := inputCost, outputCost := outputCost }

/-- Python's `', '.join(xs)`. -/
def joinComma : List String → String
  | [] => ""
  | [s] => s
  | s :: rest => s ++ ", " ++ joinComma rest

/-- `SecurityManager._get_required_permission(operation)`. -/
def requiredPermission (operation : String) : Permission :=
  if operation = "deploy" then .agentDeploy
  else if operation = "kill" then .agentKill
  else if operation = "pause" then .agentPause
  else if operation = "resume" then .agentResume
  else if operation = "view" then .agentView
  else if operation = "api_call" then .apiCall
  else if operation = "data_read" then .dataRead
  else if operation = "data_write" then .dataWrite
  else if operation = "budget_modify" then .budgetModify
  else .apiCall

/-- `max(threat_level, other, key=declaration-order index)`. -/
def maxThreat (a b : ThreatLevel) : ThreatLevel :=
  if a.rank ≥ b.rank then a else b

/-- The components held by a `SecurityManager`; a component is `none`
exactly when the corresponding `enable_*` flag is false (the constructor
ties the two together). -/
structure ManagerState where
  validator : Option ValidatorConfig
  budget : Option (EnforcerState × RateLimiterState)
  access : Option ACState
  sandboxComp : Option SandboxState
  monitor : Option MonitorState
  audit : Option AuditState

/-- `self.audit_logger.log(...)` when auditing is enabled (propagating the
`RecursionError` audit.py's broken clock raises). -/
def mgrAudit (fuel : Nat) (mgr : ManagerState) (et : AuditEventType)
    (actor action : String) (resource : Option String) (result : String)
    (ip sid : Option String) : Except PyError ManagerState :=
  match mgr.audit with
  | none => .ok mgr
  | some au =>
      match auditLog fuel au et actor action resource result ip sid with
      | .error e => .error e
      | .ok au' => .ok { mgr with audit := some au' }

/-- `self.monitor.record_event(...)` when monitoring is enabled (the
manager does not hold the monitor's lock). -/
def mgrRecordEvent (mgr : ManagerState) (ev : SecurityEvent) :
    Except PyError ManagerState :=
  match mgr.monitor with
  | none => .ok mgr
  | some mo =>
      match recordEvent false mo ev with
      | .error e => .error e
      | .ok mo' => .ok { mgr with monitor := some mo' }

/-- `SecurityManager.check_agent_operation(agent_id, operation,
input_data, config, estimated_tokens, session_id)`.

`now` models the manager module's own (correct) `safe_datetime_now()`;
`fuel` is the interpreter recursion budget for the *broken* file-local
clocks in audit.py and monitor.py; `rlClock` supplies the `time.time()`
samples consumed by the rate limiter. -/
def checkAgentOperation (mgr : ManagerState) (fuel : Nat) (now : ℚ)
    (rlClock : List ℚ) (agentId operation : String)
    (inputData : Option String)
    (config : Option (List (String × ConfigVal)))
    (estimatedTokens : Option (Int × Int)) (sessionId : Option String) :
    Except PyError (SecurityCheckResult × ManagerState) := do
  -- 1. Access Control Check
  let step1 :
      Except PyError ((SecurityCheckResult × ManagerState) ⊕
        (ManagerState × List String)) :=
    match mgr.access, sessionId with
    | some ac, some sid => do
        let pr := checkPermission ac now sid (requiredPermission operation)
        let mgr := { mgr with access := some pr.2 }
        if pr.1.1 = false then do
          let mgr ← mgrAudit fuel mgr .authzDenied agentId operation none
            "denied" none (some sid)
          return .inl
            ({ allowed := false
               reason := some ("Access denied: " ++ (pr.1.2.getD ""))
               checksPassed := []
               checksFailed := ["access_control: " ++ (pr.1.2.getD "")]
               threatLevel := .critical, costReserved := 0 }, mgr)
        else do
          let mgr ← mgrAudit fuel mgr .authzGranted agentId operation none
            "success" none (some sid)
          return .inr (mgr, ["access_control"])
    | _, _ => .ok (.inr (mgr, []))
  match ← step1 with
  | .inl done => return done
  | .inr (mgr, checksPassed) =>
  -- 2. Input Validation (`input_data` must be truthy: non-empty)
  let step2 :
      Except PyError ((SecurityCheckResult × ManagerState) ⊕
        (ManagerState × ThreatLevel)) :=
    match mgr.validator, inputData with
    | some v, some s =>
        if s = "" then .ok (.inr (mgr, .safe))
        else
          let r := validate v s (agentId ++ ":" ++ operation)
          if r.isValid = false then do
            let mgr ← mgrRecordEvent mgr
              { timestamp := now, eventType := .suspiciousInput
                level := if r.threatLevel = .suspicious then .warning
                  else .critical
                -- source interpolates the Python repr of the threat list;
                -- the joined form carries the same data
                description :=
                  "Input validation failed: " ++ joinComma r.threatsDetected
                source := agentId, metadata := [], acknowledged := false }
            let mgr ← mgrAudit fuel mgr .inputBlocked agentId
              "security.input_blocked" none "blocked" none none
            return .inl
              ({ allowed := false
                 reason := some ("Input validation failed: " ++
                   joinComma r.threatsDetected)
                 checksPassed := checksPassed
                 checksFailed :=
                   ["input_validation: " ++ joinComma r.threatsDetected]
                 threatLevel := maxThreat .safe r.threatLevel
                 costReserved := 0 }, mgr)
          else
            .ok (.inr (mgr,
              if r.threatLevel ≠ .safe then r.threatLevel else .safe))
    | _, _ => .ok (.inr (mgr, .safe))
  match ← step2 with
  | .inl done => return done
  | .inr (mgr, threatLevel) =>
  let checksPassed := if mgr.validator.isSome ∧
      (inputData.getD "") ≠ "" then checksPassed ++ ["input_validation"]
    else checksPassed
  -- 3. Config Validation (`config` must be truthy: non-empty)
  let step3 :
      Except PyError ((SecurityCheckResult × ManagerState) ⊕ Unit) :=
    match mgr.validator, config with
    | some v, some c =>
        if c.isEmpty then .ok (.inr ())
        else
          let cv := validateConfig v c
          if cv.1 = false then
            .ok (.inl
              ({ allowed := false
                 reason := some ("Config validation failed: " ++
                   joinComma cv.2)
                 checksPassed := checksPassed
                 checksFailed := ["config_validation: " ++ joinComma cv.2]
                 threatLevel := .dangerous, costReserved := 0 }, mgr))
          else .ok (.inr ())
    | _, _ => .ok (.inr ())
  match ← step3 with
  | .inl done => return done
  | .inr () =>
  let checksPassed := if mgr.validator.isSome ∧
      (config.getD []).isEmpty = false then
      checksPassed ++ ["config_validation"]
    else checksPassed
  -- 4. Budget Check and Reservation
  match mgr.budget, estimatedTokens with
  | some (enf, rl), some (inputTokens, outputTokens) => do
      let costPred := predictCost inputTokens outputTokens
        "claude-sonnet-4-5-20250929"
      -- Check rate limit (timeout=5.0)
      let ra := acquire rl 5 rlClock
      let mgr := { mgr with budget := some (enf, ra.2) }
      if ra.1 = false then do
        let mgr ← mgrRecordEvent mgr
          { timestamp := now, eventType := .rateLimitExceeded
            level := .warning, description := "Rate limit exceeded"
            source := agentId, metadata := [], acknowledged := false }
        return ({ allowed := false, reason := some "Rate limit exceeded"
                  checksPassed := checksPassed
                  checksFailed := ["rate_limit_exceeded"]
                  threatLevel := threatLevel, costReserved := 0 }, mgr)
      else do
        -- Check and reserve budget
        let cr ← checkAndReserve enf now agentId costPred.estimatedCost
        let mgr := { mgr with budget := some (cr.2, ra.2) }
        if cr.1.1 = false then do
          let reason := cr.1.2.getD ""
          let mgr ← mgrRecordEvent mgr
            { timestamp := now, eventType := .budgetViolation
              level := if strIn "EMERGENCY" reason then .critical
                else .warning
              description := reason, source := agentId
              metadata := [("estimated_cost", costPred.estimatedCost)]
              acknowledged := false }
          let mgr ← mgrAudit fuel mgr .budgetExceeded agentId operation
            none "blocked" none none
          return ({ allowed := false
                    reason := some ("Budget check failed: " ++ reason)
                    checksPassed := checksPassed
                    checksFailed := ["budget: " ++ reason]
                    threatLevel := threatLevel, costReserved := 0 }, mgr)
        else do
          let checksPassed := checksPassed ++ ["budget_check"]
          -- Record cost for monitoring
          let mgr ←
            match mgr.monitor with
            | none => pure mgr
            | some mo =>
                match recordCost fuel mo agentId costPred.estimatedCost with
                | .error e => .error e
                | .ok mo' => pure { mgr with monitor := some mo' }
          -- All checks passed
          let mgr ← mgrAudit fuel mgr .authzGranted agentId operation none
            "allowed" none none
          return ({ allowed := true, reason := none
                    checksPassed := checksPassed, checksFailed := []
                    threatLevel := threatLevel
                    costReserved := costPred.estimatedCost }, mgr)
  | _, _ => do
      -- All checks passed (no budget step)
      let mgr ← mgrAudit fuel mgr .authzGranted agentId operation none
        "allowed" none none
      return ({ allowed := true, reason := none
                checksPassed := checksPassed, checksFailed := []
                threatLevel := threatLevel, costReserved := 0 }, mgr)

/-- A concrete `SecurityManager` in its default configuration except
`enable_audit=False` (with auditing on, `AuditLogger.__init__` itself
calls audit.py's broken `safe_datetime_now` via `_get_log_file`, so the
manager cannot even be constructed): every other component is the default
construction at clock reading 0. -/
def mgrC4 : ManagerState :=
  { validator := some defaultValidator
    budget := some (defaultBudgetEnforcer 0, mkRateLimiter 60 10 0)
    access := some mkAccessController
    sandboxComp := some (mkSandbox defaultSandboxConfig)
    monitor := some mkSecurityMonitor
    audit := none }

/-- A concrete enabled API key (as minted by `create_api_key` for the
AGENT role at clock reading 0). -/
def demoKey : APIKey :=
  { keyId := "key-1", keyHash := "h", name := "demo", role := .agent
    createdAt := 0, expiresAt := none, lastUsed := none, useCount := 0
    enabled := true, ipWhitelist := none, scopes := rolePermissions .agent }

/-- An `AccessController` holding `demoKey`. -/
def demoAC : ACState :=
  { mkAccessController with apiKeys := [("key-1", demoKey)] }

/-- A child process that would run for 30 seconds (exit 0, no output);
`kill()` makes `communicate()` report exit code -9. -/
def demoRun : ProcessRun :=
  { duration := 30, exitCode := 0, stdout := "", stderr := ""
    killExitCode := -9, stdoutAfterKill := "", stderrAfterKill := "" }

/-- An environment whose `Popen` always yields `demoRun` and that resolves
no path as allowed. -/
def demoOracle : ProcessOracle :=
  { spawn := fun _ => some demoRun, pathAllowed := fun _ => false }

/-- Time/period bookkeeping for enforcer states reached from a fresh
enforcer created at `t0`: enough to show `reset_if_needed` never fires for
calls within the first hour. -/
structure EnforcerMeta (t0 : ℚ) (st : EnforcerState) : Prop where
  dailyPeriod : st.globalDaily.period = .daily
  dailyStart : st.globalDaily.periodStart = t0
  hourlyPeriod : st.globalHourly.period = .hourly
  hourlyStart : st.globalHourly.periodStart = t0
  agentsMeta : ∀ p ∈ st.agentLimits,
    (p : String × BudgetLimit).2.period = .daily ∧ t0 ≤ p.2.periodStart
  keysNodup : (st.agentLimits.map Prod.fst).Nodup

/-- Inductive invariant for enforcer states reached from a fresh enforcer
created at `t0`, when all reservations happen within the first hour: the
bookkeeping of `EnforcerMeta`, plus the ceiling bound of every enforced
limit. -/
structure EnforcerInv (t0 : ℚ) (st : EnforcerState) : Prop where
  meta : EnforcerMeta t0 st
  paNonneg : 0 ≤ st.perAgentDailyLimit
  dailyBound : st.globalDaily.enforced = true →
    st.globalDaily.currentSpend ≤ st.globalDaily.limit
  hourlyBound : st.globalHourly.enforced = true →
    st.globalHourly.currentSpend ≤ st.globalHourly.limit
  agentsBound : ∀ p ∈ st.agentLimits,
    (p : String × BudgetLimit).2.enforced = true →
    p.2.currentSpend ≤ p.2.limit

/-! ## Lemmas about the budget enforcer -/

@[simp] theorem blockOp_globalDaily (st : EnforcerState) (c : ℚ) :
    (st.blockOp c).globalDaily = st.globalDaily := rfl

@[simp] theorem blockOp_globalHourly (st : EnforcerState) (c : ℚ) :
    (st.blockOp c).globalHourly = st.globalHourly := rfl

@[simp] theorem blockOp_agentLimits (st : EnforcerState) (c : ℚ) :
    (st.blockOp c).agentLimits = st.agentLimits := rfl

@[simp] theorem newAgentLimit_currentSpend (st : EnforcerState) (now : ℚ)
    (a : String) : (newAgentLimit st now a).currentSpend = 0 := rfl

@[simp] theorem newAgentLimit_limit (st : EnforcerState) (now : ℚ)
    (a : String) : (newAgentLimit st now a).limit = st.perAgentDailyLimit := rfl

@[simp] theorem newAgentLimit_enforced (st : EnforcerState) (now : ℚ)
    (a : String) : (newAgentLimit st now a).enforced = true := rfl

@[simp] theorem newAgentLimit_period (st : EnforcerState) (now : ℚ)
    (a : String) : (newAgentLimit st now a).period = Period.daily := rfl

@[simp] theorem newAgentLimit_periodStart (st : EnforcerState) (now : ℚ)
    (a : String) : (newAgentLimit st now a).periodStart = now := rfl

@[simp] theorem ensureAgentLimit_globalDaily (st : EnforcerState) (now : ℚ)
    (a : String) : (ensureAgentLimit st now a).globalDaily = st.globalDaily := rfl

@[simp] theorem ensureAgentLimit_globalHourly (st : EnforcerState) (now : ℚ)
    (a : String) :
    (ensureAgentLimit st now a).globalHourly = st.globalHourly := rfl

@[simp] theorem ensureAgentLimit_perAgent (st : EnforcerState) (now : ℚ)
    (a : String) :
    (ensureAgentLimit st now a).perAgentDailyLimit = st.perAgentDailyLimit := rfl

@[simp] theorem ensureAgentLimit_threshold (st : EnforcerState) (now : ℚ)
    (a : String) :
    (ensureAgentLimit st now a).emergencyStopThreshold
      = st.emergencyStopThreshold := rfl

@[simp] theorem reserveSpend_globalDaily (st : EnforcerState) (a : String)
    (c : ℚ) : (reserveSpend st a c).globalDaily = addSpend c st.globalDaily := rfl

@[simp] theorem reserveSpend_globalHourly (st : EnforcerState) (a : String)
    (c : ℚ) :
    (reserveSpend st a c).globalHourly = addSpend c st.globalHourly := rfl

@[simp] theorem reserveSpend_agentLimits (st : EnforcerState) (a : String)
    (c : ℚ) :
    (reserveSpend st a c).agentLimits
      = updateAgentLimit st.agentLimits a (addSpend c) := rfl

@[simp] theorem addSpend_currentSpend (c : ℚ) (l : BudgetLimit) :
    (addSpend c l).currentSpend = l.currentSpend + c := rfl

@[simp] theorem addSpend_limit (c : ℚ) (l : BudgetLimit) :
    (addSpend c l).limit = l.limit := rfl

@[simp] theorem addSpend_enforced (c : ℚ) (l : BudgetLimit) :
    (addSpend c l).enforced = l.enforced := rfl

@[simp] theorem addSpend_period (c : ℚ) (l : BudgetLimit) :
    (addSpend c l).period = l.period := rfl

@[simp] theorem addSpend_periodStart (c : ℚ) (l : BudgetLimit) :
    (addSpend c l).periodStart = l.periodStart := rfl

theorem lookup_cons (b k : String) (v : BudgetLimit)
    (t : List (String × BudgetLimit)) :
    ((k, v) :: t).lookup b = if b = k then some v else t.lookup b := by
  by_cases h : b = k
  · subst h; simp [List.lookup]
  · have hb : (b == k) = false := beq_eq_false_iff_ne.mpr h
    simp [List.lookup, hb, h]

theorem updateAgentLimit_cons (k : String) (v : BudgetLimit)
    (t : List (String × BudgetLimit)) (a : String)
    (f : BudgetLimit → BudgetLimit) :
    updateAgentLimit ((k, v) :: t) a f =
      (if k = a then (k, f v) else (k, v)) :: updateAgentLimit t a f := by
  simp only [updateAgentLimit, List.map_cons]

theorem lookup_updateAgentLimit (ls : List (String × BudgetLimit))
    (a b : String) (f : BudgetLimit → BudgetLimit) :
    (updateAgentLimit ls a f).lookup b =
      if b = a then (ls.lookup b).map f else ls.lookup b := by
  induction ls with
  | nil => simp [updateAgentLimit]
  | cons p t ih =>
      obtain ⟨k, v⟩ := p
      rw [updateAgentLimit_cons]
      by_cases hka : k = a
      · subst hka
        by_cases hbk : b = k
        · subst hbk
          simp [lookup_cons]
        · simp [lookup_cons, hbk, ih]
      · by_cases hbk : b = k
        · subst hbk
          simp [lookup_cons, hka]
        · simp [lookup_cons, hka, hbk, ih]

theorem updateAgentLimit_id (ls : List (String × BudgetLimit)) (a : String)
    (f : BudgetLimit → BudgetLimit)
    (h : ∀ p ∈ ls, p.1 = a → f p.2 = p.2) :
    updateAgentLimit ls a f = ls := by
  induction ls with
  | nil => rfl
  | cons p t ih =>
      obtain ⟨k, v⟩ := p
      rw [updateAgentLimit_cons]
      have hhead : (if k = a then (k, f v) else (k, v)) = (k, v) := by
        by_cases hka : k = a
        · rw [if_pos hka, h (k, v) (by simp) hka]
        · rw [if_neg hka]
      rw [hhead, ih fun q hq hqa => h q (List.mem_cons_of_mem _ hq) hqa]

theorem mem_updateAgentLimit {ls : List (String × BudgetLimit)} {a : String}
    {f : BudgetLimit → BudgetLimit} {p : String × BudgetLimit}
    (hp : p ∈ updateAgentLimit ls a f) :
    ∃ q ∈ ls, (¬ q.1 = a ∧ p = q) ∨ (q.1 = a ∧ p = (q.1, f q.2)) := by
  unfold updateAgentLimit at hp
  obtain ⟨q, hq, hqe⟩ := List.mem_map.mp hp
  refine ⟨q, hq, ?_⟩
  by_cases hqa : q.1 = a
  · right; rw [if_pos hqa] at hqe; exact ⟨hqa, hqe.symm⟩
  · left; rw [if_neg hqa] at hqe; exact ⟨hqa, hqe.symm⟩

theorem keys_updateAgentLimit (ls : List (String × BudgetLimit)) (a : String)
    (f : BudgetLimit → BudgetLimit) :
    (updateAgentLimit ls a f).map Prod.fst = ls.map Prod.fst := by
  induction ls with
  | nil => rfl
  | cons p t ih =>
      obtain ⟨k, v⟩ := p
      rw [updateAgentLimit_cons, List.map_cons, List.map_cons, ih]
      by_cases hka : k = a
      · rw [if_pos hka]
      · rw [if_neg hka]

theorem lookup_eq_none_iff (ls : List (String × BudgetLimit)) (a : String) :
    ls.lookup a = none ↔ a ∉ ls.map Prod.fst := by
  induction ls with
  | nil => simp
  | cons p t ih =>
      obtain ⟨k, v⟩ := p
      rw [lookup_cons]
      by_cases hak : a = k
      · simp [hak]
      · simp [hak, ih]

theorem lookup_of_mem_nodup {ls : List (String × BudgetLimit)}
    {k : String} {v : BudgetLimit}
    (hnd : (ls.map Prod.fst).Nodup) (hm : (k, v) ∈ ls) :
    ls.lookup k = some v := by
  induction ls with
  | nil => simp at hm
  | cons p t ih =>
      obtain ⟨k', v'⟩ := p
      rw [List.map_cons, List.nodup_cons] at hnd
      rw [lookup_cons]
      rcases List.mem_cons.mp hm with heq | hmt
      · simp only [Prod.mk.injEq] at heq
        rw [if_pos heq.1, heq.2]
      · by_cases hkk : k = k'
        · exfalso
          apply hnd.1
          rw [← hkk]
          exact List.mem_map.mpr ⟨(k, v), hmt, rfl⟩
        · rw [if_neg hkk]
          exact ih hnd.2 hmt

theorem lookup_append_singleton (ls : List (String × BudgetLimit))
    (a b : String) (l : BudgetLimit) :
    (ls ++ [(a, l)]).lookup b =
      match ls.lookup b with
      | some v => some v
      | none => if b = a then some l else none := by
  induction ls with
  | nil =>
      simp only [List.nil_append]
      rw [lookup_cons]
      rfl
  | cons p t ih =>
      obtain ⟨k, v⟩ := p
      rw [List.cons_append, lookup_cons, lookup_cons]
      by_cases hbk : b = k
      · rw [if_pos hbk, if_pos hbk]
      · rw [if_neg hbk, if_neg hbk, ih]

theorem resetIfNeeded_eq_self {l : BudgetLimit} {now len : ℚ}
    (hlen : periodLength l.period = some len) (h : now - l.periodStart ≤ len) :
    l.resetIfNeeded now = l := by
  unfold BudgetLimit.resetIfNeeded
  rw [hlen]
  simp only [if_neg (not_lt.mpr h)]

theorem applyResets_eq_self {t0 now : ℚ} {st : EnforcerState} {a : String}
    (hM : EnforcerMeta t0 st) (_h1 : t0 ≤ now) (h2 : now ≤ t0 + 3600) :
    applyResets st now a = st := by
  have hd : st.globalDaily.resetIfNeeded now = st.globalDaily :=
    resetIfNeeded_eq_self (by rw [hM.dailyPeriod]; rfl)
      (by rw [hM.dailyStart]; linarith)
  have hh : st.globalHourly.resetIfNeeded now = st.globalHourly :=
    resetIfNeeded_eq_self (by rw [hM.hourlyPeriod]; rfl)
      (by rw [hM.hourlyStart]; linarith)
  have ha : updateAgentLimit st.agentLimits a (·.resetIfNeeded now)
      = st.agentLimits := by
    apply updateAgentLimit_id
    intro p hp _
    obtain ⟨hper, hstart⟩ := hM.agentsMeta p hp
    exact resetIfNeeded_eq_self (by rw [hper]; rfl) (by linarith)
  unfold applyResets
  rw [hd, hh]
  split <;> simp [ha]

/-- When the agent already has a limit entry, the setup block changes
nothing. -/
theorem ensureAgentLimit_eq_some {st : EnforcerState} {now : ℚ} {a : String}
    (h : (st.agentLimits.lookup a).isSome = true) :
    ensureAgentLimit st now a = st := by
  unfold ensureAgentLimit
  rw [if_pos h]

/-- When the agent has no entry, the setup block appends the fresh limit. -/
theorem ensureAgentLimit_eq_none {st : EnforcerState} {now : ℚ} {a : String}
    (h : st.agentLimits.lookup a = none) :
    ensureAgentLimit st now a =
      { st with agentLimits :=
          st.agentLimits ++ [(a, newAgentLimit st now a)] } := by
  unfold ensureAgentLimit
  rw [h]
  rfl

/-- When an agent has no limit entry yet, `check_and_reserve` creates one
with zero spend, the per-agent ceiling, a daily period starting now. -/
theorem ensureAgentLimit_lookup_none {st : EnforcerState} {now : ℚ}
    {a : String} (h : st.agentLimits.lookup a = none) :
    (ensureAgentLimit st now a).agentLimits.lookup a =
      some (newAgentLimit st now a) := by
  rw [ensureAgentLimit_eq_none h]
  show (st.agentLimits ++ [(a, newAgentLimit st now a)]).lookup a = _
  rw [lookup_append_singleton, h]
  simp

/-- Reaching the emergency-stop trigger in the post-reset checks: all
earlier checks pass, the calling agent has no limit entry yet, and the new
daily total reaches the threshold, so `trigger_emergency_stop` re-acquires
the held lock and the call deadlocks. -/
theorem checkAndReserveCore_deadlock (st : EnforcerState) (now : ℚ)
    (a : String) (c : ℚ)
    (h1 : ¬ c > st.perOperationLimit)
    (h2 : ¬ (st.globalDaily.enforced = true ∧
        st.globalDaily.currentSpend + c > st.globalDaily.limit))
    (h3 : ¬ (st.globalHourly.enforced = true ∧
        st.globalHourly.currentSpend + c > st.globalHourly.limit))
    (hagent : st.agentLimits.lookup a = none)
    (h4 : ¬ (0 : ℚ) + c > st.perAgentDailyLimit)
    (h5 : st.globalDaily.currentSpend + c ≥ st.emergencyStopThreshold) :
    checkAndReserveCore st now a c = .error .deadlock := by
  simp only [checkAndReserveCore]
  rw [if_neg h1, if_neg h2, if_neg h3]
  rw [ensureAgentLimit_lookup_none hagent]
  simp only [Option.getD_some, ensureAgentLimit_globalDaily,
    ensureAgentLimit_threshold, newAgentLimit_enforced,
    newAgentLimit_currentSpend, newAgentLimit_limit, zero_add,
    eq_self_iff_true, true_and]
  rw [if_neg (by simpa using h4), if_pos h5]

theorem EnforcerMeta_blockOp {t0 : ℚ} {st : EnforcerState}
    (h : EnforcerMeta t0 st) (c : ℚ) : EnforcerMeta t0 (st.blockOp c) :=
  ⟨h.dailyPeriod, h.dailyStart, h.hourlyPeriod, h.hourlyStart,
   h.agentsMeta, h.keysNodup⟩

theorem EnforcerInv_blockOp {t0 : ℚ} {st : EnforcerState}
    (h : EnforcerInv t0 st) (c : ℚ) : EnforcerInv t0 (st.blockOp c) :=
  ⟨EnforcerMeta_blockOp h.meta c, h.paNonneg, h.dailyBound, h.hourlyBound, h.agentsBound⟩

theorem agentSpend_blockOp (st : EnforcerState) (c : ℚ) (b : String) :
    agentSpend (st.blockOp c) b = agentSpend st b := rfl

theorem agentSpend_ensureAgentLimit (st : EnforcerState) (now : ℚ)
    (a b : String) :
    agentSpend (ensureAgentLimit st now a) b = agentSpend st b := by
  cases hl : st.agentLimits.lookup a with
  | some v => rw [ensureAgentLimit_eq_some (by simp [hl])]
  | none =>
      rw [ensureAgentLimit_eq_none hl]
      unfold agentSpend
      show (match (st.agentLimits ++
          [(a, newAgentLimit st now a)]).lookup b with
        | some l => l.currentSpend
        | none => (0 : ℚ)) = _
      rw [lookup_append_singleton]
      cases hb : st.agentLimits.lookup b with
      | some v => rfl
      | none =>
          by_cases hba : b = a
          · simp [hba]
          · simp [hba]

theorem ensureAgentLimit_lookup_self (st : EnforcerState) (now : ℚ)
    (a : String) :
    ∃ al, (ensureAgentLimit st now a).agentLimits.lookup a = some al ∧
      al.currentSpend = agentSpend st a := by
  cases hl : st.agentLimits.lookup a with
  | some v =>
      refine ⟨v, ?_, by simp [agentSpend, hl]⟩
      rw [ensureAgentLimit_eq_some (by simp [hl])]
      exact hl
  | none =>
      refine ⟨newAgentLimit st now a, ensureAgentLimit_lookup_none hl,
        by simp [agentSpend, hl]⟩

theorem ensureAgentLimit_inv {t0 now : ℚ} {st : EnforcerState} {a : String}
    (hInv : EnforcerInv t0 st) (hnow1 : t0 ≤ now) :
    EnforcerInv t0 (ensureAgentLimit st now a) := by
  cases hl : st.agentLimits.lookup a with
  | some v => rw [ensureAgentLimit_eq_some (by simp [hl])]; exact hInv
  | none =>
      have hamem : a ∉ st.agentLimits.map Prod.fst :=
        (lookup_eq_none_iff st.agentLimits a).mp hl
      rw [ensureAgentLimit_eq_none hl]
      refine ⟨⟨hInv.meta.dailyPeriod, hInv.meta.dailyStart,
        hInv.meta.hourlyPeriod, hInv.meta.hourlyStart, ?_, ?_⟩,
        hInv.paNonneg, hInv.dailyBound, hInv.hourlyBound, ?_⟩
      · intro p hp
        rcases List.mem_append.mp hp with hold | hnew
        · exact hInv.meta.agentsMeta p hold
        · rw [List.mem_singleton.mp hnew]
          exact ⟨rfl, hnow1⟩
      · show ((st.agentLimits ++ [(a, newAgentLimit st now a)]).map
          Prod.fst).Nodup
        rw [List.map_append]
        refine List.Nodup.append hInv.meta.keysNodup (by simp) ?_
        simp only [List.map_cons, List.map_nil]
        rw [List.disjoint_singleton]
        exact hamem
      · intro p hp henf
        rcases List.mem_append.mp hp with hold | hnew
        · exact hInv.agentsBound p hold henf
        · rw [List.mem_singleton.mp hnew]
          simpa using hInv.paNonneg

theorem agentSpend_reserveSpend (st : EnforcerState) (a : String) (c : ℚ)
    {al : BudgetLimit} (hal : st.agentLimits.lookup a = some al)
    (b : String) :
    agentSpend (reserveSpend st a c) b
      = agentSpend st b + (if a = b then c else 0) := by
  unfold agentSpend
  simp only [reserveSpend_agentLimits]
  rw [lookup_updateAgentLimit]
  by_cases hba : b = a
  · rw [if_pos hba, hba, hal]
    simp [addSpend, hba.symm]
  · have hab : ¬ a = b := fun h => hba h.symm
    rw [if_neg hba]
    cases hlb : st.agentLimits.lookup b <;> simp [hab]

theorem reserveSpend_inv {t0 : ℚ} {st : EnforcerState} {a : String} {c : ℚ}
    {al : BudgetLimit}
    (hInv : EnforcerInv t0 st)
    (hal : st.agentLimits.lookup a = some al)
    (hgd : st.globalDaily.enforced = true →
      st.globalDaily.currentSpend + c ≤ st.globalDaily.limit)
    (hgh : st.globalHourly.enforced = true →
      st.globalHourly.currentSpend + c ≤ st.globalHourly.limit)
    (hag : al.enforced = true → al.currentSpend + c ≤ al.limit) :
    EnforcerInv t0 (reserveSpend st a c) := by
  refine ⟨⟨?_, ?_, ?_, ?_, ?_, ?_⟩, hInv.paNonneg, ?_, ?_, ?_⟩
  · simpa using hInv.meta.dailyPeriod
  · simpa using hInv.meta.dailyStart
  · simpa using hInv.meta.hourlyPeriod
  · simpa using hInv.meta.hourlyStart
  · intro p hp
    simp only [reserveSpend_agentLimits] at hp
    obtain ⟨q, hq, hcase⟩ := mem_updateAgentLimit hp
    rcases hcase with ⟨_, heq⟩ | ⟨_, heq⟩
    · rw [heq]
      exact hInv.meta.agentsMeta q hq
    · rw [heq]
      simpa using hInv.meta.agentsMeta q hq
  · simp only [reserveSpend_agentLimits, keys_updateAgentLimit]
    exact hInv.meta.keysNodup
  · intro h
    simp only [reserveSpend_globalDaily, addSpend_currentSpend, addSpend_limit]
    exact hgd (by simpa using h)
  · intro h
    simp only [reserveSpend_globalHourly, addSpend_currentSpend, addSpend_limit]
    exact hgh (by simpa using h)
  · intro p hp henf
    simp only [reserveSpend_agentLimits] at hp
    obtain ⟨q, hq, hcase⟩ := mem_updateAgentLimit hp
    rcases hcase with ⟨_, heq⟩ | ⟨hqa, heq⟩
    · rw [heq] at henf ⊢
      exact hInv.agentsBound q hq henf
    · have hlq : st.agentLimits.lookup a = some q.2 := by
        rw [← hqa]
        exact lookup_of_mem_nodup hInv.meta.keysNodup hq
      have hq2 : q.2 = al := by
        rw [hlq] at hal
        exact Option.some.inj hal
      rw [heq] at henf ⊢
      simp only [addSpend_currentSpend, addSpend_limit]
      refine hq2 ▸ hag ?_
      rw [← hq2]
      simpa using henf

/-! ## Lemmas about release_unused -/

@[simp] theorem subSpend_currentSpend (refund : ℚ) (l : BudgetLimit) :
    (subSpend refund l).currentSpend = l.currentSpend - refund := rfl

@[simp] theorem subSpend_limit (refund : ℚ) (l : BudgetLimit) :
    (subSpend refund l).limit = l.limit := rfl

@[simp] theorem subSpend_enforced (refund : ℚ) (l : BudgetLimit) :
    (subSpend refund l).enforced = l.enforced := rfl

@[simp] theorem subSpend_period (refund : ℚ) (l : BudgetLimit) :
    (subSpend refund l).period = l.period := rfl

@[simp] theorem subSpend_periodStart (refund : ℚ) (l : BudgetLimit) :
    (subSpend refund l).periodStart = l.periodStart := rfl

theorem releaseUnused_eq_self (st : EnforcerState) (a : String) (r act : ℚ)
    (h : act ≥ r) : releaseUnused st a r act = st := by
  unfold releaseUnused
  rw [if_pos h]

theorem releaseUnused_eq_sub (st : EnforcerState) (a : String) (r act : ℚ)
    (h : ¬ act ≥ r) :
    releaseUnused st a r act =
      { st with
        globalDaily := subSpend (r - act) st.globalDaily
        globalHourly := subSpend (r - act) st.globalHourly
        agentLimits :=
          if (st.agentLimits.lookup a).isSome then
            updateAgentLimit st.agentLimits a (subSpend (r - act))
          else st.agentLimits
        totalCost := st.totalCost - (r - act) } := by
  unfold releaseUnused
  rw [if_neg h]

theorem releaseUnused_spec (t0 : ℚ) (st : EnforcerState) (a : String)
    (r act : ℚ) (hInv : EnforcerInv t0 st) :
    EnforcerInv t0 (releaseUnused st a r act) ∧
    (releaseUnused st a r act).globalDaily.currentSpend
      = st.globalDaily.currentSpend - (if act < r then r - act else 0) ∧
    (releaseUnused st a r act).globalHourly.currentSpend
      = st.globalHourly.currentSpend - (if act < r then r - act else 0) ∧
    ∀ b, agentSpend (releaseUnused st a r act) b
      = agentSpend st b -
        (if ((st.agentLimits.lookup a).isSome = true ∧ act < r) ∧ a = b
         then r - act else 0) := by
  by_cases hge : act ≥ r
  · have hnlt : ¬ act < r := not_lt.mpr hge
    rw [releaseUnused_eq_self st a r act hge]
    refine ⟨hInv, by simp [hnlt], by simp [hnlt], fun b => by simp [hnlt]⟩
  · have hlt : act < r := lt_of_not_ge hge
    have hrefnn : (0 : ℚ) ≤ r - act := by linarith
    rw [releaseUnused_eq_sub st a r act hge]
    refine ⟨?_, by simp [hlt], by simp [hlt], ?_⟩
    · -- invariant
      refine ⟨⟨?_, ?_, ?_, ?_, ?_, ?_⟩, hInv.paNonneg, ?_, ?_, ?_⟩
      · simpa using hInv.meta.dailyPeriod
      · simpa using hInv.meta.dailyStart
      · simpa using hInv.meta.hourlyPeriod
      · simpa using hInv.meta.hourlyStart
      · intro p hp
        by_cases hs : (st.agentLimits.lookup a).isSome = true
        · rw [show ({ st with
              globalDaily := subSpend (r - act) st.globalDaily
              globalHourly := subSpend (r - act) st.globalHourly
              agentLimits :=
                if (st.agentLimits.lookup a).isSome then
                  updateAgentLimit st.agentLimits a (subSpend (r - act))
                else st.agentLimits
              totalCost := st.totalCost - (r - act) } : EnforcerState).agentLimits
            = updateAgentLimit st.agentLimits a (subSpend (r - act))
            from by rw [show ((st.agentLimits.lookup a).isSome = true)
              from hs]; simp] at hp
          obtain ⟨q, hq, hcase⟩ := mem_updateAgentLimit hp
          rcases hcase with ⟨_, heq⟩ | ⟨_, heq⟩
          · rw [heq]
            exact hInv.meta.agentsMeta q hq
          · rw [heq]
            simpa using hInv.meta.agentsMeta q hq
        · rw [show ({ st with
              globalDaily := subSpend (r - act) st.globalDaily
              globalHourly := subSpend (r - act) st.globalHourly
              agentLimits :=
                if (st.agentLimits.lookup a).isSome then
                  updateAgentLimit st.agentLimits a (subSpend (r - act))
                else st.agentLimits
              totalCost := st.totalCost - (r - act) } : EnforcerState).agentLimits
            = st.agentLimits from by simp [hs]] at hp
          exact hInv.meta.agentsMeta p hp
      · by_cases hs : (st.agentLimits.lookup a).isSome = true
        · show (List.map Prod.fst (if (st.agentLimits.lookup a).isSome then
              updateAgentLimit st.agentLimits a (subSpend (r - act))
            else st.agentLimits)).Nodup
          rw [if_pos hs, keys_updateAgentLimit]
          exact hInv.meta.keysNodup
        · show (List.map Prod.fst (if (st.agentLimits.lookup a).isSome then
              updateAgentLimit st.agentLimits a (subSpend (r - act))
            else st.agentLimits)).Nodup
          rw [if_neg (by simpa using hs)]
          exact hInv.meta.keysNodup
      · intro h
        simp only [subSpend_currentSpend, subSpend_limit]
        have := hInv.dailyBound (by simpa using h)
        linarith
      · intro h
        simp only [subSpend_currentSpend, subSpend_limit]
        have := hInv.hourlyBound (by simpa using h)
        linarith
      · intro p hp henf
        by_cases hs : (st.agentLimits.lookup a).isSome = true
        · rw [show ({ st with
              globalDaily := subSpend (r - act) st.globalDaily
              globalHourly := subSpend (r - act) st.globalHourly
              agentLimits :=
                if (st.agentLimits.lookup a).isSome then
                  updateAgentLimit st.agentLimits a (subSpend (r - act))
                else st.agentLimits
              totalCost := st.totalCost - (r - act) } : EnforcerState).agentLimits
            = updateAgentLimit st.agentLimits a (subSpend (r - act))
            from by simp [hs]] at hp
          obtain ⟨q, hq, hcase⟩ := mem_updateAgentLimit hp
          rcases hcase with ⟨_, heq⟩ | ⟨_, heq⟩
          · rw [heq] at henf ⊢
            exact hInv.agentsBound q hq henf
          · rw [heq] at henf ⊢
            simp only [subSpend_currentSpend, subSpend_limit]
            have := hInv.agentsBound q hq (by simpa using henf)
            linarith
        · rw [show ({ st with
              globalDaily := subSpend (r - act) st.globalDaily
              globalHourly := subSpend (r - act) st.globalHourly
              agentLimits :=
                if (st.agentLimits.lookup a).isSome then
                  updateAgentLimit st.agentLimits a (subSpend (r - act))
                else st.agentLimits
              totalCost := st.totalCost - (r - act) } : EnforcerState).agentLimits
            = st.agentLimits from by simp [hs]] at hp
          exact hInv.agentsBound p hp henf
    · -- per-agent spends
      intro b
      unfold agentSpend
      by_cases hs : (st.agentLimits.lookup a).isSome = true
      · show (match (if (st.agentLimits.lookup a).isSome then
              updateAgentLimit st.agentLimits a (subSpend (r - act))
            else st.agentLimits).lookup b with
          | some l => l.currentSpend
          | none => (0 : ℚ)) = _
        rw [if_pos hs, lookup_updateAgentLimit]
        by_cases hba : b = a
        · obtain ⟨v, hv⟩ := Option.isSome_iff_exists.mp hs
          rw [if_pos hba, hba, hv]
          simp only [Option.map_some]
          rw [if_pos ⟨⟨by simp, hlt⟩, by trivial⟩]
          simp [subSpend]
        · have hab : ¬ a = b := fun h => hba h.symm
          rw [if_neg hba, if_neg (fun h => hab h.2)]
          cases hlb : st.agentLimits.lookup b <;> simp
      · show (match (if (st.agentLimits.lookup a).isSome then
              updateAgentLimit st.agentLimits a (subSpend (r - act))
            else st.agentLimits).lookup b with
          | some l => l.currentSpend
          | none => (0 : ℚ)) = _
        rw [if_neg (by simpa using hs),
          if_neg (fun h => hs h.1.1)]
        cases hlb : st.agentLimits.lookup b <;> simp

/-! ## Per-step log-sum lemmas -/

theorem gReserved_cons_reserved (al : Bool) (a : String) (c : ℚ)
    (l : List BudgetLog) :
    gReserved (.reserved al a c :: l)
      = (if al = true then c else 0) + gReserved l := by
  cases al <;> simp [gReserved]

theorem gReserved_cons_released (a : String) (rf : ℚ) (tc : Bool)
    (l : List BudgetLog) :
    gReserved (.released a rf tc :: l) = gReserved l := by
  simp [gReserved]

theorem gReleased_cons_reserved (al : Bool) (a : String) (c : ℚ)
    (l : List BudgetLog) :
    gReleased (.reserved al a c :: l) = gReleased l := by
  cases al <;> simp [gReleased]

theorem gReleased_cons_released (a : String) (rf : ℚ) (tc : Bool)
    (l : List BudgetLog) :
    gReleased (.released a rf tc :: l) = rf + gReleased l := by
  simp [gReleased]

theorem aReserved_cons_reserved (q : String) (al : Bool) (a : String) (c : ℚ)
    (l : List BudgetLog) :
    aReserved q (.reserved al a c :: l)
      = (if al = true ∧ a = q then c else 0) + aReserved q l := by
  cases al
  · simp [aReserved]
  · by_cases haq : a = q <;> simp [aReserved, haq]

theorem aReserved_cons_released (q a : String) (rf : ℚ) (tc : Bool)
    (l : List BudgetLog) :
    aReserved q (.released a rf tc :: l) = aReserved q l := by
  simp [aReserved]

theorem aReleased_cons_reserved (q : String) (al : Bool) (a : String) (c : ℚ)
    (l : List BudgetLog) :
    aReleased q (.reserved al a c :: l) = aReleased q l := by
  cases al <;> simp [aReleased]

theorem aReleased_cons_released (q a : String) (rf : ℚ) (tc : Bool)
    (l : List BudgetLog) :
    aReleased q (.released a rf tc :: l)
      = (if tc = true ∧ a = q then rf else 0) + aReleased q l := by
  cases tc
  · simp [aReleased]
  · by_cases haq : a = q <;> simp [aReleased, haq]

/-! ## The step lemma for check_and_reserve -/

theorem checkAndReserve_spec (t0 now : ℚ) (st : EnforcerState) (a : String)
    (c : ℚ) (hInv : EnforcerInv t0 st) (hnow1 : t0 ≤ now)
    (hnow2 : now ≤ t0 + 3600) :
    checkAndReserve st now a c = .error .deadlock ∨
    ∃ allowed reason st',
      checkAndReserve st now a c = .ok ((allowed, reason), st') ∧
      EnforcerInv t0 st' ∧
      st'.globalDaily.currentSpend
        = st.globalDaily.currentSpend + (if allowed = true then c else 0) ∧
      st'.globalHourly.currentSpend
        = st.globalHourly.currentSpend + (if allowed = true then c else 0) ∧
      ∀ b, agentSpend st' b
        = agentSpend st b + (if allowed = true ∧ a = b then c else 0) := by
  unfold checkAndReserve
  by_cases hstop : st.emergencyStopActive = true
  · rw [if_pos hstop]
    right
    exact ⟨false, _, _, rfl, EnforcerInv_blockOp hInv c, by simp, by simp,
      fun b => by simp [agentSpend_blockOp]⟩
  · rw [if_neg hstop, applyResets_eq_self hInv.meta hnow1 hnow2]
    simp only [checkAndReserveCore]
    by_cases h1 : c > st.perOperationLimit
    · rw [if_pos h1]
      right
      exact ⟨false, _, _, rfl, EnforcerInv_blockOp hInv c, by simp, by simp,
        fun b => by simp [agentSpend_blockOp]⟩
    · rw [if_neg h1]
      by_cases h2 : st.globalDaily.enforced = true ∧
          st.globalDaily.currentSpend + c > st.globalDaily.limit
      · rw [if_pos h2]
        right
        exact ⟨false, _, _, rfl, EnforcerInv_blockOp hInv c, by simp, by simp,
          fun b => by simp [agentSpend_blockOp]⟩
      · rw [if_neg h2]
        by_cases h3 : st.globalHourly.enforced = true ∧
            st.globalHourly.currentSpend + c > st.globalHourly.limit
        · rw [if_pos h3]
          right
          exact ⟨false, _, _, rfl, EnforcerInv_blockOp hInv c, by simp, by simp,
            fun b => by simp [agentSpend_blockOp]⟩
        · rw [if_neg h3]
          obtain ⟨al, hal, halcs⟩ := ensureAgentLimit_lookup_self st now a
          have hInv1 : EnforcerInv t0 (ensureAgentLimit st now a) :=
            ensureAgentLimit_inv hInv hnow1
          rw [hal]
          simp only [Option.getD_some, ensureAgentLimit_globalDaily,
            ensureAgentLimit_threshold]
          by_cases h4 : al.enforced = true ∧ al.currentSpend + c > al.limit
          · rw [if_pos h4]
            right
            refine ⟨false, _, _, rfl, EnforcerInv_blockOp hInv1 c, by simp, by simp,
              fun b => ?_⟩
            rw [agentSpend_blockOp, agentSpend_ensureAgentLimit]
            simp
          · rw [if_neg h4]
            by_cases h5 : st.globalDaily.currentSpend + c
                ≥ st.emergencyStopThreshold
            · rw [if_pos h5]
              left
              rfl
            · rw [if_neg h5]
              right
              refine ⟨true, none, _, rfl, ?_, ?_, ?_, fun b => ?_⟩
              · refine reserveSpend_inv hInv1 hal ?_ ?_ ?_
                · intro he
                  rw [ensureAgentLimit_globalDaily] at he ⊢
                  push_neg at h2
                  exact h2 he
                · intro he
                  rw [ensureAgentLimit_globalHourly] at he ⊢
                  push_neg at h3
                  exact h3 he
                · intro he
                  push_neg at h4
                  exact h4 he
              · simp
              · simp
              · rw [agentSpend_reserveSpend _ _ _ hal,
                  agentSpend_ensureAgentLimit]
                simp

/-! ## The trace theorem behind C2 -/

theorem runBudget_spec (t0 : ℚ) (ops : List BudgetOp) :
    ∀ (st : EnforcerState), EnforcerInv t0 st →
    (∀ op ∈ ops, opTimeInWindow t0 op) →
    ∀ st' logs, runBudget st ops = some (st', logs) →
    EnforcerInv t0 st' ∧
    st'.globalDaily.currentSpend
      = st.globalDaily.currentSpend + (gReserved logs - gReleased logs) ∧
    st'.globalHourly.currentSpend
      = st.globalHourly.currentSpend + (gReserved logs - gReleased logs) ∧
    ∀ b, agentSpend st' b
      = agentSpend st b + (aReserved b logs - aReleased b logs) := by
  induction ops with
  | nil =>
      intro st hInv _ st' logs hrun
      simp only [runBudget, Option.some.injEq, Prod.mk.injEq] at hrun
      obtain ⟨rfl, rfl⟩ := hrun
      exact ⟨hInv, by simp [gReserved, gReleased],
        by simp [gReserved, gReleased],
        fun b => by simp [aReserved, aReleased]⟩
  | cons op rest ih =>
      intro st hInv htimes st' logs hrun
      match op, hrun with
      | .reserve now a c, hrun =>
          have hw := htimes (.reserve now a c) (by simp)
          obtain ⟨hnow1, hnow2⟩ := hw
          rcases checkAndReserve_spec t0 now st a c hInv hnow1 hnow2 with
            hdead | ⟨allowed, reason, st1, heq, hInv1, hd, hh, hag⟩
          · rw [runBudget, hdead] at hrun
            exact absurd hrun (by simp)
          · rw [runBudget, heq] at hrun
            simp only [] at hrun
            cases hrest : runBudget st1 rest with
            | none => rw [hrest] at hrun; exact absurd hrun (by simp)
            | some p =>
                obtain ⟨fin, logs'⟩ := p
                rw [hrest] at hrun
                simp only [Option.some.injEq, Prod.mk.injEq] at hrun
                obtain ⟨rfl, rfl⟩ := hrun
                obtain ⟨hIf, hdf, hhf, haf⟩ :=
                  ih st1 hInv1
                    (fun o ho => htimes o (List.mem_cons_of_mem _ ho))
                    fin logs' hrest
                refine ⟨hIf, ?_, ?_, fun b => ?_⟩
                · rw [gReserved_cons_reserved, gReleased_cons_reserved]
                  rw [hdf, hd]
                  ring
                · rw [gReserved_cons_reserved, gReleased_cons_reserved]
                  rw [hhf, hh]
                  ring
                · rw [aReserved_cons_reserved, aReleased_cons_reserved]
                  rw [haf b, hag b]
                  ring
      | .release a r act, hrun =>
          obtain ⟨hIr, hdr, hhr, har⟩ :=
            releaseUnused_spec t0 st a r act hInv
          rw [runBudget] at hrun
          cases hrest : runBudget (releaseUnused st a r act) rest with
          | none => rw [hrest] at hrun; exact absurd hrun (by simp)
          | some p =>
              obtain ⟨fin, logs'⟩ := p
              rw [hrest] at hrun
              simp only [Option.some.injEq, Prod.mk.injEq] at hrun
              obtain ⟨rfl, rfl⟩ := hrun
              obtain ⟨hIf, hdf, hhf, haf⟩ :=
                ih (releaseUnused st a r act) hIr
                  (fun o ho => htimes o (List.mem_cons_of_mem _ ho))
                  fin logs' hrest
              refine ⟨hIf, ?_, ?_, fun b => ?_⟩
              · rw [gReserved_cons_released, gReleased_cons_released]
                rw [hdf, hdr]
                ring
              · rw [gReserved_cons_released, gReleased_cons_released]
                rw [hhf, hhr]
                ring
              · rw [aReserved_cons_released, aReleased_cons_released]
                rw [haf b, har b]
                have hC : (if ((st.agentLimits.lookup a).isSome = true
                      ∧ act < r) ∧ a = b then r - act else 0)
                    = (if ((st.agentLimits.lookup a).isSome
                        && decide (act < r)) = true ∧ a = b
                      then (if act < r then r - act else 0) else 0) := by
                  by_cases hc : (st.agentLimits.lookup a).isSome = true
                      ∧ act < r
                  · by_cases hab : a = b
                    · rw [if_pos ⟨hc, hab⟩,
                        if_pos ⟨by simp [hc.1, hc.2], hab⟩, if_pos hc.2]
                    · rw [if_neg (fun h => hab h.2),
                        if_neg (fun h => hab h.2)]
                  · rw [if_neg (fun h => hc h.1),
                      if_neg (fun h => hc (by simpa using h.1))]
                rw [hC]
                ring

/-! ## Claim C2: the budget ledger invariant -/

/-- C2.  On a fresh `BudgetEnforcer` (nonnegative configured limits), for
every sequence of `check_and_reserve` / `release_unused` calls whose
reservations stay inside the first budget period (so `reset_if_needed`
never fires), at every point of the sequence — i.e. after every prefix
that runs to completion — each `BudgetLimit`'s `current_spend` equals the
sum of the costs successfully reserved against it minus the refunds
released against it, and every limit with `enforced=True` (all of them, on
a fresh enforcer) has `current_spend ≤ limit`. -/
theorem budget_trace_spec (gd gh pa po hc em t0 : ℚ)
    (hgd : 0 ≤ gd) (hgh : 0 ≤ gh) (hpa : 0 ≤ pa)
    (ops : List BudgetOp)
    (htimes : ∀ op ∈ ops, opTimeInWindow t0 op) :
    ∀ pre suf, ops = pre ++ suf →
    ∀ st' logs,
      runBudget (mkBudgetEnforcer gd gh pa po hc em t0) pre
        = some (st', logs) →
    (st'.globalDaily.currentSpend = gReserved logs - gReleased logs ∧
     st'.globalHourly.currentSpend = gReserved logs - gReleased logs ∧
     ∀ a, agentSpend st' a = aReserved a logs - aReleased a logs) ∧
    ((st'.globalDaily.enforced = true →
       st'.globalDaily.currentSpend ≤ st'.globalDaily.limit) ∧
     (st'.globalHourly.enforced = true →
       st'.globalHourly.currentSpend ≤ st'.globalHourly.limit) ∧
     ∀ p ∈ st'.agentLimits, (p : String × BudgetLimit).2.enforced = true →
       p.2.currentSpend ≤ p.2.limit) := by
  intro pre suf hsplit st' logs hrun
  have hInv0 : EnforcerInv t0 (mkBudgetEnforcer gd gh pa po hc em t0) := by
    refine ⟨⟨rfl, rfl, rfl, rfl, ?_, by simp [mkBudgetEnforcer]⟩,
      hpa, fun _ => ?_, fun _ => ?_, ?_⟩
    · intro p hp
      simp [mkBudgetEnforcer] at hp
    · simpa [mkBudgetEnforcer] using hgd
    · simpa [mkBudgetEnforcer] using hgh
    · intro p hp
      simp [mkBudgetEnforcer] at hp
  have htimes' : ∀ op ∈ pre, opTimeInWindow t0 op := by
    intro op hop
    exact htimes op (hsplit ▸ List.mem_append.mpr (Or.inl hop))
  obtain ⟨hInv', hd, hh, hag⟩ :=
    runBudget_spec t0 pre (mkBudgetEnforcer gd gh pa po hc em t0)
      hInv0 htimes' st' logs hrun
  refine ⟨⟨?_, ?_, fun a => ?_⟩,
    hInv'.dailyBound, hInv'.hourlyBound, hInv'.agentsBound⟩
  · rw [hd]
    simp [mkBudgetEnforcer]
  · rw [hh]
    simp [mkBudgetEnforcer]
  · rw [hag a]
    simp [agentSpend, mkBudgetEnforcer]

/-- Witness for `budget_trace_spec`: a concrete three-step trace — agent
"a" reserves $2, releases $1 of it back, then agent "a" reserves another $3 —
against a default-configured enforcer, taking the whole trace as the
prefix. -/
theorem budget_trace_spec_witness :
    ((0 : ℚ) ≤ 100 ∧ (0 : ℚ) ≤ 20 ∧ (0 : ℚ) ≤ 10) ∧
    (∀ op ∈ [BudgetOp.reserve 0 "a" 2, BudgetOp.release "a" 2 1,
        BudgetOp.reserve 10 "a" 3], opTimeInWindow 0 op) ∧
    ∃ st' logs,
      runBudget (mkBudgetEnforcer 100 20 10 30 5 150 0)
        [BudgetOp.reserve 0 "a" 2, BudgetOp.release "a" 2 1,
         BudgetOp.reserve 10 "a" 3] = some (st', logs) ∧
      st'.globalDaily.currentSpend = gReserved logs - gReleased logs ∧
      (st'.globalDaily.enforced = true →
        st'.globalDaily.currentSpend ≤ st'.globalDaily.limit) := by
  have hwin : ∀ op ∈ [BudgetOp.reserve 0 "a" 2, BudgetOp.release "a" 2 1,
      BudgetOp.reserve 10 "a" 3], opTimeInWindow 0 op := by
    intro op hop
    fin_cases hop
    · exact ⟨by norm_num, by norm_num⟩
    · trivial
    · exact ⟨by norm_num, by norm_num⟩
  refine ⟨⟨by norm_num, by norm_num, by norm_num⟩, hwin, ?_⟩
  cases hrun : runBudget (mkBudgetEnforcer 100 20 10 30 5 150 0)
      [BudgetOp.reserve 0 "a" 2, BudgetOp.release "a" 2 1,
       BudgetOp.reserve 10 "a" 3] with
  | none =>
      refine absurd hrun ?_
      norm_num [runBudget, checkAndReserve, checkAndReserveCore, applyResets,
        ensureAgentLimit, newAgentLimit, reserveSpend, releaseUnused,
        addSpend, subSpend, updateAgentLimit, mkBudgetEnforcer,
        BudgetLimit.resetIfNeeded, periodLength, List.lookup,
        EnforcerState.blockOp]
      exact fun h => Option.noConfusion h
  | some p =>
      obtain ⟨st', logs⟩ := p
      have hsp := budget_trace_spec 100 20 10 30 5 150 0
        (by norm_num) (by norm_num) (by norm_num)
        [BudgetOp.reserve 0 "a" 2, BudgetOp.release "a" 2 1,
         BudgetOp.reserve 10 "a" 3] hwin
        [BudgetOp.reserve 0 "a" 2, BudgetOp.release "a" 2 1,
         BudgetOp.reserve 10 "a" 3] [] (by simp)
        st' logs hrun
      exact ⟨st', logs, rfl, hsp.1.1, hsp.2.1⟩

/-! ## Claim C1: the emergency-stop branch of check_and_reserve -/

/-- C1.  When no emergency stop is active and the per-operation, global and
per-agent checks all pass on a fresh enforcer, but the daily total would
reach `emergency_stop_threshold`, `check_and_reserve` does **not** latch the
flag and return `(False, reason)`: it calls `trigger_emergency_stop`, whose
`with self.lock:` re-acquires the non-reentrant lock already held by
`check_and_reserve`, so the call deadlocks and never returns. -/
theorem checkAndReserve_emergency_deadlock
    (gd gh pa po hc em t0 : ℚ) (a : String) (c : ℚ)
    (h1 : c ≤ po) (h2 : c ≤ gd) (h3 : c ≤ gh) (h4 : c ≤ pa) (h5 : em ≤ c) :
    checkAndReserve (mkBudgetEnforcer gd gh pa po hc em t0) t0 a c
      = .error .deadlock := by
  have hM : EnforcerMeta t0 (mkBudgetEnforcer gd gh pa po hc em t0) := by
    refine ⟨rfl, rfl, rfl, rfl, ?_, ?_⟩
    · intro p hp
      simp [mkBudgetEnforcer] at hp
    · simp [mkBudgetEnforcer]
  unfold checkAndReserve
  rw [if_neg (by simp [mkBudgetEnforcer])]
  rw [applyResets_eq_self hM le_rfl (by linarith)]
  apply checkAndReserveCore_deadlock
  · simp [mkBudgetEnforcer]; linarith
  · simp [mkBudgetEnforcer]; linarith
  · simp [mkBudgetEnforcer]; linarith
  · simp [mkBudgetEnforcer]
  · simp [mkBudgetEnforcer]; linarith
  · simp [mkBudgetEnforcer]; linarith

/-- Witness for `checkAndReserve_emergency_deadlock` at a concrete
configuration and cost. -/
theorem checkAndReserve_emergency_deadlock_witness :
    ((50 : ℚ) ≤ 200 ∧ (50 : ℚ) ≤ 150 ∧ (50 : ℚ) ≥ 50) ∧
    checkAndReserve (mkBudgetEnforcer 200 200 200 200 5 50 0) 0 "agent" 50
      = .error .deadlock :=
  ⟨⟨by norm_num, by norm_num, by norm_num⟩,
   checkAndReserve_emergency_deadlock 200 200 200 200 5 50 0 "agent" 50
     (by norm_num) (by norm_num) (by norm_num) (by norm_num) (by norm_num)⟩

/-! ## Claim C7: try_acquire -/

/-- C7.  `RateLimiter.try_acquire` = `acquire(timeout=0.0)` computes
`deadline = time.time() + 0.0` and then evaluates the loop guard
`while time.time() < deadline:`; with a (weakly) monotone clock the second
reading is never below the first, so the loop body is never entered: the
call always returns `False` without consuming or refilling any token, on
any state — including a fresh limiter with a full bucket. -/
theorem tryAcquire_always_false (st : RateLimiterState) (clock : List ℚ)
    (hmono : clock.Chain' (· ≤ ·)) :
    tryAcquire st clock = (false, st) := by
  unfold tryAcquire acquire
  match clock, hmono with
  | [], _ => rfl
  | [t0], _ => rfl
  | [t0, t], _ => rfl
  | t0 :: t :: now :: rest, hmono =>
      have h01 : t0 ≤ t := (List.chain'_cons.mp hmono).1
      show acquireLoop st (t0 + 0) (t :: now :: rest) = (false, st)
      have hng : ¬ t < t0 + 0 := by rw [add_zero]; exact not_lt.mpr h01
      simp only [acquireLoop, if_neg hng]

/-- Witness for `tryAcquire_always_false`: a fresh limiter with a full
burst bucket of 10 tokens still gets `False`. -/
theorem tryAcquire_always_false_witness :
    ([(0 : ℚ), 0].Chain' (· ≤ ·)) ∧
    tryAcquire (mkRateLimiter 60 10 0) [0, 0] = (false, mkRateLimiter 60 10 0) :=
  have hc : [(0 : ℚ), 0].Chain' (· ≤ ·) :=
    List.chain'_cons.mpr ⟨le_refl 0, List.chain'_singleton 0⟩
  ⟨hc, tryAcquire_always_false (mkRateLimiter 60 10 0) [0, 0] hc⟩

/-! ## Claim C3: is_valid as a function of threat level -/

set_option maxRecDepth 100000 in
/-- C3 counterexample: the input `"${"` (a template-injection sequence,
matching no malicious pattern) ends validation at threat level DANGEROUS,
yet `is_valid` is `True` — the source's `threat_level ==
ThreatLevel.DANGEROUS  # Allow with sanitization` disjunct — contradicting
the claim that a DANGEROUS result has `is_valid=False`. -/
theorem validate_dangerous_is_valid_cex :
    (validate defaultValidator "$\x7b" "user_input").threatLevel
      = ThreatLevel.dangerous ∧
    (validate defaultValidator "$\x7b" "user_input").isValid = true := by
  constructor
  · decide
  · decide

/-- C3 (amended).  For every configuration, input text and context,
`validate` returns `is_valid=True` exactly when the final threat level is
SAFE, or SUSPICIOUS with strict mode off, **or DANGEROUS (regardless of
strict mode, "Allow with sanitization")**; a CRITICAL final level always
gives `is_valid=False` regardless of strict mode. -/
theorem validate_isValid_iff (cfg : ValidatorConfig) (s ctx : String) :
    (validate cfg s ctx).isValid = true ↔
      ((validate cfg s ctx).threatLevel = ThreatLevel.safe ∨
       ((validate cfg s ctx).threatLevel = ThreatLevel.suspicious ∧
         cfg.strictMode = false) ∨
       (validate cfg s ctx).threatLevel = ThreatLevel.dangerous) := by
  unfold validate
  by_cases hs : s = ""
  · rw [if_pos hs]
    simp
  · rw [if_neg hs]
    simp only []
    cases hL : (validateCore cfg s ctx).level <;>
      cases hstrict : cfg.strictMode <;>
        simp [decideValid, hL, hstrict]

/-! ## Claim C10: release_unused with actual ≥ reserved -/

/-- C10.  `release_unused(agent_id, reserved_cost, actual_cost)` with
`actual_cost >= reserved_cost` returns before touching anything: every
limit's `current_spend` and the `total_cost` counter are unchanged (the
whole state is unchanged). -/
theorem releaseUnused_noop (st : EnforcerState) (a : String) (r c : ℚ)
    (h : c ≥ r) :
    releaseUnused st a r c = st := by
  unfold releaseUnused
  rw [if_pos h]

/-- Witness for `releaseUnused_noop`. -/
theorem releaseUnused_noop_witness :
    ((5 : ℚ) ≥ 3) ∧
    releaseUnused (defaultBudgetEnforcer 0) "a" 3 5 = defaultBudgetEnforcer 0 :=
  ⟨by norm_num, releaseUnused_noop (defaultBudgetEnforcer 0) "a" 3 5 (by norm_num)⟩

/-! ## Claim C5: rotate_api_key -/

/-- C5.  `rotate_api_key(key_id)` on any controller that knows `key_id`
never returns at all: holding the non-reentrant lock it calls
`create_api_key`, whose `with self.lock:` re-acquires that same lock, so
the call deadlocks — the old key's sessions are never invalidated (and
`check_permission` would not consult `key.enabled` anyway) and no
replacement key is ever handed back.  This contradicts the claim that the
call returns with the old key disabled and a fresh enabled key created. -/
theorem rotateApiKey_deadlock (st : ACState) (keyId : String) (k : APIKey)
    (freshId freshPlain freshHash : String) (now : ℚ)
    (h : st.apiKeys.lookup keyId = some k) :
    rotateApiKey st keyId freshId freshPlain freshHash now
      = .error .deadlock := by
  unfold rotateApiKey
  rw [h]
  rfl

/-- Witness for `rotateApiKey_deadlock`: the controller `demoAC` holding
the enabled key `"key-1"`. -/
theorem rotateApiKey_deadlock_witness :
    demoAC.apiKeys.lookup "key-1" = some demoKey ∧
    rotateApiKey demoAC "key-1" "key-2" "pt" "h2" 0 = .error .deadlock :=
  ⟨rfl, rotateApiKey_deadlock demoAC "key-1" demoKey "key-2" "pt" "h2" 0 rfl⟩

/-! ## Claim C8: cost-spike detection -/

/-- monitor.py's `safe_datetime_now` calls itself in its own `try:`, so
every call exhausts the recursion limit; `RecursionError` is not in the
caught `(OSError, OverflowError, ValueError)`, so it propagates whatever
the remaining recursion budget was. -/
theorem brokenSafeDatetimeNow_err (fuel : Nat) :
    brokenSafeDatetimeNow fuel = .error .recursionError := by
  induction fuel with
  | zero => rfl
  | succ n ih => simp [brokenSafeDatetimeNow, ih]

/-- Every `record_cost` call dies in its first statement
`timestamp = safe_datetime_now()`. -/
theorem recordCost_err (fuel : Nat) (st : MonitorState) (agentId : String)
    (cost : ℚ) : recordCost fuel st agentId cost = .error .recursionError := by
  unfold recordCost
  rw [brokenSafeDatetimeNow_err]

/-- C8.  From any monitor state — in particular at every one of the ten
`record_cost(unit, 0.01)` calls and the final `record_cost(unit, 1.00)`
of the claimed scenario — `record_cost` raises `RecursionError` before
recording anything: its first statement calls monitor.py's
`safe_datetime_now`, which recurses into itself unconditionally.  No
`cost_spike` event and no alert is ever produced, contradicting the
claim. -/
theorem recordCost_always_raises (fuel : Nat) (st : MonitorState)
    (unit : String) (cost : ℚ) :
    recordCost fuel st unit cost = .error .recursionError :=
  recordCost_err fuel st unit cost

/-! ## Claim C6: sandbox blocked commands and timeout kill -/

set_option maxRecDepth 100000 in
/-- C6.  On a fresh strict-mode sandbox with the default block list,
`execute_command(["rm", "-rf", "/"])` fails with a
`blocked_command: rm` violation before `Popen` is ever reached (the
third component of the embedding records whether a child was spawned);
and for any environment in which the spawned `sleep` child would run
longer than the 5-second `max_execution_time`, `execute_command(["sleep",
"30"])` reports `killed=True` with kill reason `"Execution timeout"`. -/
theorem sandbox_blocks_and_kills (oracle : ProcessOracle) (run : ProcessRun)
    (hspawn : oracle.spawn ["sleep", "30"] = some run)
    (hdur : run.duration > 5) :
    ((executeCommand (mkSandbox defaultSandboxConfig) oracle
        ["rm", "-rf", "/"] none).1.success = false ∧
     "blocked_command: rm" ∈ (executeCommand (mkSandbox defaultSandboxConfig)
        oracle ["rm", "-rf", "/"] none).1.violations ∧
     (executeCommand (mkSandbox defaultSandboxConfig) oracle
        ["rm", "-rf", "/"] none).2.2 = false) ∧
    ((executeCommand
        (mkSandbox { defaultSandboxConfig with maxExecutionTime := 5 })
        oracle ["sleep", "30"] none).1.killed = true ∧
     (executeCommand
        (mkSandbox { defaultSandboxConfig with maxExecutionTime := 5 })
        oracle ["sleep", "30"] none).1.killReason
       = some "Execution timeout") := by
  have hd : decide (run.duration > (5:ℚ)) = true := decide_eq_true hdur
  constructor
  · refine ⟨rfl, ?_, rfl⟩
    show "blocked_command: rm" ∈ ["blocked_command: rm"]
    exact List.mem_singleton.mpr rfl
  · constructor
    · show (runChild _ [] (oracle.spawn ["sleep", "30"])).1.killed = true
      rw [hspawn]
      show decide (run.duration > (5:ℚ)) = true
      exact hd
    · show (runChild _ [] (oracle.spawn ["sleep", "30"])).1.killReason
        = some "Execution timeout"
      rw [hspawn]
      simp [runChild, mkSandbox, hd]
      exact hdur

set_option maxRecDepth 100000 in
/-- Witness for `sandbox_blocks_and_kills`: the environment `demoOracle`,
whose `sleep` child runs for 30 seconds. -/
theorem sandbox_blocks_and_kills_witness :
    (demoOracle.spawn ["sleep", "30"] = some demoRun ∧
     demoRun.duration > 5) ∧
    (executeCommand
        (mkSandbox { defaultSandboxConfig with maxExecutionTime := 5 })
        demoOracle ["sleep", "30"] none).1.killed = true :=
  ⟨⟨rfl, by decide⟩,
   (sandbox_blocks_and_kills demoOracle demoRun rfl (by decide)).2.1⟩

/-! ## Claim C4: check_agent_operation never raises -/

/-- `predict_cost(1000, 1000, "claude-sonnet-4-5-20250929")`: $0.003 in,
$0.015 out, times the 1.1 buffer = $0.0198 = 99/5000. -/
theorem predictCost_sonnet_1000 :
    predictCost 1000 1000 "claude-sonnet-4-5-20250929"
      = { estimatedCost := 99/5000, confidence := 9/10, tokenEstimate := 2000
          modelUsed := "claude-sonnet-4-5-20250929", inputCost := 3/1000
          outputCost := 3/200 } := by
  simp [predictCost, modelCosts]
  norm_num

set_option maxRecDepth 100000 in
/-- C4.  Refuted: `check_agent_operation` has no exception handling at
all, and on the all-checks-pass path it calls
`self.monitor.record_cost(...)` (security_manager.py line 313), whose
first statement invokes monitor.py's self-recursive `safe_datetime_now`
— so a `RecursionError` escapes to the caller.  Concretely, on the
default manager (audit off — with auditing on the constructor itself
raises), `check_agent_operation("agent-1", "api_call",
estimated_tokens=(1000, 1000))` passes access control (no session),
skips input/config validation, acquires the rate-limit token, reserves
$0.0198 of budget, and then raises instead of returning a
`SecurityCheckResult`. -/
theorem checkAgentOperation_raises :
    checkAgentOperation mgrC4 1000 0 [0, 0, 0] "agent-1" "api_call"
      none none (some (1000, 1000)) none = .error .recursionError := by
  norm_num [checkAgentOperation, mgrC4, mgrAudit, mgrRecordEvent,
    predictCost_sonnet_1000, acquire, acquireLoop, mkRateLimiter,
    RateLimiterState.refillRate, checkAndReserve, checkAndReserveCore,
    applyResets, ensureAgentLimit, newAgentLimit, reserveSpend, addSpend,
    updateAgentLimit, mkBudgetEnforcer, defaultBudgetEnforcer,
    BudgetLimit.resetIfNeeded, periodLength, List.lookup,
    EnforcerState.blockOp, recordCost_err, Except.bind, Except.pure,
    Except.instMonad, Except.map, Bind.bind, Pure.pure, Functor.map]

end NovaSec
